import Mathlib

/-!
Verification of the AmbaLearn front-end proxy (src/app.py).

The program is a single-process Flask app that forwards browser requests to
one backend origin, copies backend session cookies into the local Flask
session, and renders templates or returns JSON. We embed the data model and
every route handler as pure Lean functions. Effects are made explicit:

* the per-user Flask session is a `SessionStore` value threaded through
  each handler;
* the backend is an oracle `Backend`; answering `none` models
  a raised `requests.exceptions.RequestException`;
* each outgoing HTTP call is recorded in a trace of `OutRequest` values;
* a `requests.Session` is its cookie jar (`Cookies`); responses merge
  their `Set-Cookie` headers into the jar, as the requests library does;
* an uncaught Python exception (`AttributeError`, `KeyError`, ...)
  surfaces as the `FrontResponse.crash` outcome;
* module-level globals (`API_BASE_URL`, `MEDIAPIPE_BASE_URL`) live in a
  `Globals` record that handlers receive and return, so that the frame
  condition (handlers never write them) is a provable statement.

Python string interpolation of exception objects is abstracted by the
constant `requestExceptionText`; no claim inspects those message texts.
-/

/-- HTTP method used by the handlers (only GET and POST occur in app.py). -/
inductive Method where
  | get : Method
  | post : Method
deriving DecidableEq

/-- A cookie jar or cookie dict: association list from names to values. -/
abbrev Cookies := List (String × String)

/-- Set one cookie, replacing an existing entry with the same name. -/
def Cookies.set : Cookies → String → String → Cookies
  | [], k, v => [(k, v)]
  | (k₁, v₁) :: rest, k, v =>
      if k₁ = k then (k, v) :: rest else (k₁, v₁) :: Cookies.set rest k v

/-- Merge new cookies into a jar, overriding entries with the same name.
This models both `RequestsCookieJar.update` and the merge that the
requests library performs with the Set-Cookie headers of a response. -/
def Cookies.update (jar upd : Cookies) : Cookies :=
  upd.foldl (fun j kv => Cookies.set j kv.1 kv.2) jar

/-- JSON values, used for request payloads, response bodies, session
values, flash messages and template context. -/
inductive Json where
  | null : Json
  | bool : Bool → Json
  | num : Int → Json
  | str : String → Json
  | arr : List Json → Json
  | obj : List (String × Json) → Json

/-- Python truthiness of a JSON value (`if value:`). -/
def Json.truthy : Json → Bool
  | .null => false
  | .bool b => b
  | .num n => n != 0
  | .str s => !s.isEmpty
  | .arr xs => !xs.isEmpty
  | .obj fs => !fs.isEmpty

/-- Python `value.get(key)`: `AttributeError` unless the value is a dict;
returns `none` when the key is absent (Python `None`). -/
def Json.pyGetOpt : Json → String → Except String (Option Json)
  | .obj fs, k => .ok (fs.lookup k)
  | _, _ => .error "AttributeError"

/-- Python `value.get(key, default)`. -/
def Json.pyGetD (j : Json) (k : String) (d : Json) : Except String Json :=
  (j.pyGetOpt k).map (fun o => o.getD d)

/-- Python `value[key]` on a dict: `KeyError` when absent, `TypeError`
when the value is not a dict. -/
def Json.pySub : Json → String → Except String Json
  | .obj fs, k =>
      match fs.lookup k with
      | some v => .ok v
      | none => .error "KeyError"
  | _, _ => .error "TypeError"

/-- Python `value[i]` on a list; anything that is not a list is treated
as a `TypeError` (a string index would succeed in Python but the
character is then subscripted with a string key and fails anyway). -/
def Json.pyIndex : Json → Nat → Except String Json
  | .arr xs, i =>
      match xs.get? i with
      | some v => .ok v
      | none => .error "IndexError"
  | _, _ => .error "TypeError"

/-- Python `==` between a JSON field value and an int route argument:
ints compare numerically, bools compare as 0 and 1, everything else is
unequal (no exception). -/
def pyEqNat (v : Json) (n : Nat) : Bool :=
  match v with
  | .num k => k == (n : Int)
  | .bool b => (if b then (1 : Int) else 0) == (n : Int)
  | _ => false

/-- A backend HTTP response: status code, JSON body, Set-Cookie headers. -/
structure HttpResponse where
  status : Nat
  body : Json
  setCookies : Cookies

/-- `response.ok` of the requests library: status below 400. -/
def HttpResponse.ok (r : HttpResponse) : Bool := decide (r.status < 400)

/-- One outgoing HTTP request issued by the process: method, full URL,
optional JSON payload, and the cookies attached from the jar. -/
structure OutRequest where
  method : Method
  url : String
  payload : Option Json
  cookies : Cookies

/-- The backend oracle: given method, URL, payload and attached cookies it
either answers with a response or raises a network failure (`none`,
modelling `requests.exceptions.RequestException`). -/
def Backend := Method → String → Option Json → Cookies → Option HttpResponse

/-- Result of one call through a `requests.Session`: the optional
response, the jar after the call (response cookies merged in), and the
wire request that was issued. -/
structure Call where
  resp : Option HttpResponse
  jar : Cookies
  req : OutRequest

/-- Perform one HTTP call through a session with jar `jar`. -/
def doCall (b : Backend) (jar : Cookies) (m : Method) (url : String)
    (payload : Option Json) : Call :=
  let req : OutRequest := ⟨m, url, payload, jar⟩
  match b m url payload jar with
  | none => ⟨none, jar, req⟩
  | some r => ⟨some r, Cookies.update jar r.setCookies, req⟩

/-- The module-level configuration globals of app.py. -/
structure Globals where
  API_BASE_URL : String
  MEDIAPIPE_BASE_URL : String

/-- The values assigned to the globals in app.py. -/
def defaultGlobals : Globals :=
  { API_BASE_URL := "http://127.0.0.1:8080"
    MEDIAPIPE_BASE_URL := "http://127.0.0.1:5001" }

/-- Full URL of a backend endpoint, as built by the f-strings in app.py. -/
def apiUrl (g : Globals) (path : String) : String := g.API_BASE_URL ++ path

/-- The per-user Flask session. The handlers only ever write the keys
`api_cookies`, `access_token` and `user`, plus the flash-message list
(stored by Flask inside the same session); a key is present exactly when
the corresponding field is `some`. -/
structure SessionStore where
  api_cookies : Option Cookies
  access_token : Option Json
  user : Option Json
  flashes : List (Json × String)

/-- Session with no keys set (also the result of `session.clear()`). -/
def emptySession : SessionStore := ⟨none, none, none, []⟩

/-- `flash(message, category)`: append to the flash list in the session. -/
def SessionStore.flash (s : SessionStore) (m : Json) (cat : String) : SessionStore :=
  { s with flashes := s.flashes ++ [(m, cat)] }

/-- The response a handler hands back to the browser. -/
inductive FrontResponse where
  | redirect : String → List (String × Json) → FrontResponse
  | render : String → List (String × Json) → FrontResponse
  | jsonResp : Json → Nat → FrontResponse
  | crash : String → FrontResponse

/-- Complete observable outcome of handling one request: the response,
the session as left behind, the trace of outgoing backend calls, and the
module globals as left behind. -/
structure HResult where
  response : FrontResponse
  session : SessionStore
  trace : List OutRequest
  globals : Globals

/-- Abstract text of a stringified RequestException (`str(e)` in app.py);
no theorem depends on its contents. -/
def requestExceptionText : String := "RequestException"

/-- Truthiness of an optional form field (`request.form.get(...)`). -/
def strTruthy : Option String → Bool
  | none => false
  | some s => !s.isEmpty

/-- JSON value of an optional form field (absent fields serialize as null). -/
def optStrJson : Option String → Json
  | none => Json.null
  | some s => Json.str s

/-- Hex digit (uppercase) for percent-encoding. -/
def hexDigit (n : Nat) : Char :=
  if n < 10 then Char.ofNat (48 + n) else Char.ofNat (55 + n)

/-- Bytes left unescaped by `requests.utils.quote` with its default
`safe` value: unreserved characters plus the slash. -/
def isQuoteSafeByte (b : UInt8) : Bool :=
  let n := b.toNat
  decide ((48 ≤ n ∧ n ≤ 57) ∨ (65 ≤ n ∧ n ≤ 90) ∨ (97 ≤ n ∧ n ≤ 122) ∨
    n = 45 ∨ n = 46 ∨ n = 95 ∨ n = 126 ∨ n = 47)

/-- `requests.utils.quote`: percent-encode the UTF-8 bytes of a string. -/
def quote (s : String) : String :=
  s.toUTF8.toList.foldl
    (fun acc b =>
      if isQuoteSafeByte b then acc.push (Char.ofNat b.toNat)
      else acc ++ "%" ++ String.mk [hexDigit (b.toNat / 16), hexDigit (b.toNat % 16)])
    ""

/-- Python dict assignment `fs[k] = v`, keeping field order like a dict. -/
def objSet : List (String × Json) → String → Json → List (String × Json)
  | [], k, v => [(k, v)]
  | (k₁, v₁) :: rest, k, v =>
      if k₁ = k then (k, v) :: rest else (k₁, v₁) :: objSet rest k v

/-- The result of a blocked request in `login_required`: flash an error
and redirect to the login page, with no backend call made. -/
def loginRedirect (g : Globals) (sess : SessionStore) : HResult :=
  { response := .redirect "login" []
    session := sess.flash (.str "Please log in to access this page.") "error"
    trace := []
    globals := g }

/-- The `login_required` decorator: when the key `api_cookies` is absent
from the session, flash an error and redirect to login without running
the wrapped handler; otherwise run it. -/
def login_required (g : Globals) (sess : SessionStore) (f : Unit → HResult) : HResult :=
  match sess.api_cookies with
  | none => loginRedirect g sess
  | some _ => f ()

/-- `get_api_session`: a fresh `requests.Session` whose jar is loaded
(via `cookies.update`) with the cookies stored in the session, when
present. The value is the initial cookie jar. -/
def get_api_session (sess : SessionStore) : Cookies :=
  match sess.api_cookies with
  | none => []
  | some c => Cookies.update [] c

/-- Result of the `get_course_data` helper: the parsed course JSON (or
`None` on any request failure), the jar after the call, and the request
issued. -/
structure CourseFetch where
  data : Option Json
  jar : Cookies
  req : OutRequest

/-- `get_course_data(api, course_uid)`: GET the course, `raise_for_status`,
return the JSON body; any RequestException (including the HTTPError that
`raise_for_status` raises for a 4xx or 5xx status) yields `None`. -/
def get_course_data (b : Backend) (g : Globals) (jar : Cookies)
    (course_uid : String) : CourseFetch :=
  let c := doCall b jar .get (apiUrl g ("/course/" ++ course_uid)) none
  match c.resp with
  | none => ⟨none, c.jar, c.req⟩
  | some resp =>
      if 400 ≤ resp.status then ⟨none, c.jar, c.req⟩ else ⟨some resp.body, c.jar, c.req⟩

/-- Template data produced by the `inject_global_data` context processor. -/
structure GlobalData where
  logged_in_user : Option Json
  chat_history : Json

/-- The `inject_global_data` context processor. Returns the sidebar data
(or an uncaught `AttributeError` as `.error`) together with the trace of
backend calls it made. -/
def inject_global_data (g : Globals) (b : Backend) (sess : SessionStore) :
    Except String GlobalData × List OutRequest :=
  match sess.api_cookies with
  | none => (.ok ⟨none, .arr []⟩, [])
  | some _ =>
      let jar := get_api_session sess
      let c₁ := doCall b jar .get (apiUrl g "/@me") none
      match c₁.resp with
      | none => (.ok ⟨some (.obj [("username", .str "Error")]), .arr []⟩, [c₁.req])
      | some user_resp =>
          let user_info := if user_resp.ok then user_resp.body
                           else .obj [("username", .str "Guest")]
          let c₂ := doCall b c₁.jar .get (apiUrl g "/list_sessions") none
          match c₂.resp with
          | none => (.ok ⟨some (.obj [("username", .str "Error")]), .arr []⟩,
                     [c₁.req, c₂.req])
          | some chat_resp =>
              if chat_resp.ok then
                match chat_resp.body.pyGetD "sessions" (.arr []) with
                | .error e => (.error e, [c₁.req, c₂.req])
                | .ok sessions => (.ok ⟨some user_info, sessions⟩, [c₁.req, c₂.req])
              else (.ok ⟨some user_info, .arr []⟩, [c₁.req, c₂.req])

/-- The POST form read by the login and register handlers. -/
structure AuthForm where
  email : Option String
  username : Option String
  password : Option String

/-- The JSON payload the login handler builds: always the password, plus
whichever of email and username is present (email preferred). -/
def loginPayload (form : AuthForm) : Json :=
  .obj ([("password", optStrJson form.password)] ++
    (if strTruthy form.email then [("email", optStrJson form.email)]
     else [("username", optStrJson form.username)]))

/-- The `/login` route handler. -/
def login (g : Globals) (b : Backend) (sess : SessionStore) (method : Method)
    (form : AuthForm) : HResult :=
  match method with
  | .get => ⟨.render "login.html" [], sess, [], g⟩
  | .post =>
      if !strTruthy form.password || (!strTruthy form.email && !strTruthy form.username) then
        ⟨.render "login.html" [],
         sess.flash (.str "Please enter your email or username and password.") "error",
         [], g⟩
      else
        let c := doCall b [] .post (apiUrl g "/login") (some (loginPayload form))
        match c.resp with
        | none =>
            ⟨.render "login.html" [],
             sess.flash (.str ("Error connecting to login service: " ++ requestExceptionText)) "error",
             [c.req], g⟩
        | some response =>
            if response.ok then
              ⟨.redirect "homepage" [],
               { sess with api_cookies := some c.jar },
               [c.req], g⟩
            else
              match response.body.pyGetD "error" (.str "Invalid credentials") with
              | .error e => ⟨.crash e, sess, [c.req], g⟩
              | .ok msg =>
                  ⟨.render "login.html" [], sess.flash msg "error", [c.req], g⟩

/-- The JSON payload the register handler posts. -/
def registerPayload (form : AuthForm) : Json :=
  .obj [("username", optStrJson form.username),
    ("email", optStrJson form.email), ("password", optStrJson form.password)]

/-- The `/register` route handler. -/
def register (g : Globals) (b : Backend) (sess : SessionStore) (method : Method)
    (form : AuthForm) : HResult :=
  match method with
  | .get => ⟨.render "register.html" [], sess, [], g⟩
  | .post =>
      let c := doCall b [] .post (apiUrl g "/register") (some (registerPayload form))
      match c.resp with
      | none =>
          ⟨.render "register.html" [],
           sess.flash (.str ("Error connecting to registration service: " ++ requestExceptionText)) "error",
           [c.req], g⟩
      | some response =>
          if response.status = 201 then
            ⟨.redirect "homepage" [],
             { sess with api_cookies := some c.jar },
             [c.req], g⟩
          else
            match response.body.pyGetD "error" (.str "Registration failed") with
            | .error e => ⟨.crash e, sess, [c.req], g⟩
            | .ok msg =>
                ⟨.render "register.html" [], sess.flash msg "error", [c.req], g⟩

/-- The `/logout` route handler: proxy the logout when logged in (failures
silently ignored), clear the whole session, flash, redirect to login. -/
def logout (g : Globals) (b : Backend) (sess : SessionStore) : HResult :=
  let tr : List OutRequest :=
    match sess.api_cookies with
    | none => []
    | some _ =>
        let jar := get_api_session sess
        let c := doCall b jar .post (apiUrl g "/logout") none
        [c.req]
  { response := .redirect "login" []
    session := emptySession.flash (.str "You have been logged out.") "success"
    trace := tr
    globals := g }

/-- The `/` route handler. -/
def index (g : Globals) (sess : SessionStore) : HResult :=
  ⟨.redirect "homepage" [], sess, [], g⟩

/-- The `/home` route handler. -/
def homepage_body (g : Globals) (sess : SessionStore) : HResult :=
    ⟨.render "homepage.html" [], sess, [], g⟩

def homepage (g : Globals) (sess : SessionStore) : HResult :=
  login_required g sess fun _ => homepage_body g sess

/-- The `/chat/<uid>` route handler. -/
def chat_page_body (g : Globals) (b : Backend) (sess : SessionStore) (uid : String) : HResult :=
    let jar := get_api_session sess
    let c := doCall b jar .get (apiUrl g ("/get_session/" ++ uid)) none
    match c.resp with
    | none =>
        ⟨.redirect "homepage" [],
         sess.flash (.str "Could not load chat session.") "error", [c.req], g⟩
    | some resp =>
        if 400 ≤ resp.status then
          ⟨.redirect "homepage" [],
           sess.flash (.str "Could not load chat session.") "error", [c.req], g⟩
        else
          ⟨.render "chat.html" [("chat_data", resp.body)], sess, [c.req], g⟩

def chat_page (g : Globals) (b : Backend) (sess : SessionStore) (uid : String) : HResult :=
  login_required g sess fun _ => chat_page_body g b sess uid

/-- The placeholder image URL attached to each course card. -/
def courseImage (title : Json) : Except String Json :=
  match title with
  | .str t => .ok (.str ("https://placehold.co/600x400.png?text=" ++ quote t))
  | _ => .error "TypeError"

/-- One iteration of the image loop in the courses handler: requires a
dict, reads `course_title` with default, assigns `image`. -/
def addImage (course : Json) : Except String Json :=
  match course with
  | .obj fs =>
      match courseImage ((fs.lookup "course_title").getD (.str "Course")) with
      | .error e => .error e
      | .ok img => .ok (.obj (objSet fs "image" img))
  | _ => .error "TypeError"

/-- The `for course in course_list` loop of the courses handler, with
Python iteration semantics on non-list values (iterating a non-empty
dict or string reaches an item that cannot take item assignment). -/
def mapCourses : Json → Except String Json
  | .arr items =>
      match items.mapM addImage with
      | .error e => .error e
      | .ok out => .ok (.arr out)
  | .obj fs => if fs.isEmpty then .ok (.obj fs) else .error "TypeError"
  | .str s => if s.isEmpty then .ok (.str s) else .error "TypeError"
  | _ => .error "TypeError"

/-- The `/courses` route handler. -/
def courses_body (g : Globals) (b : Backend) (sess : SessionStore) : HResult :=
    let jar := get_api_session sess
    let c := doCall b jar .get (apiUrl g "/courses") none
    match c.resp with
    | none =>
        ⟨.render "courses.html" [("courses", .arr [])],
         sess.flash (.str "Could not load courses from API.") "error", [c.req], g⟩
    | some resp =>
        if 400 ≤ resp.status then
          ⟨.render "courses.html" [("courses", .arr [])],
           sess.flash (.str "Could not load courses from API.") "error", [c.req], g⟩
        else
          match mapCourses resp.body with
          | .error e => ⟨.crash e, sess, [c.req], g⟩
          | .ok course_list =>
              ⟨.render "courses.html" [("courses", course_list)], sess, [c.req], g⟩

def courses (g : Globals) (b : Backend) (sess : SessionStore) : HResult :=
  login_required g sess fun _ => courses_body g b sess

/-- The `/generate_course` route handler. -/
def generate_course_body (g : Globals) (b : Backend) (sess : SessionStore)
    (topic : Option String) : HResult :=
    if !strTruthy topic then
      ⟨.redirect "courses" [], sess.flash (.str "Topic is required.") "error", [], g⟩
    else
      let jar := get_api_session sess
      let c := doCall b jar .post (apiUrl g "/generate_course")
        (some (.obj [("topic", optStrJson topic)]))
      match c.resp with
      | none =>
          ⟨.redirect "courses" [],
           sess.flash (.str ("Error generating course: " ++ requestExceptionText)) "error",
           [c.req], g⟩
      | some resp =>
          if 400 ≤ resp.status then
            ⟨.redirect "courses" [],
             sess.flash (.str ("Error generating course: " ++ requestExceptionText)) "error",
             [c.req], g⟩
          else
            ⟨.redirect "courses" [],
             sess.flash (.str ("Successfully generated course for \x27" ++ topic.getD "" ++ "\x27!")) "success",
             [c.req], g⟩

def generate_course (g : Globals) (b : Backend) (sess : SessionStore)
    (topic : Option String) : HResult :=
  login_required g sess fun _ => generate_course_body g b sess topic

/-- The `/lessons/<course_uid>` route handler: find the first lesson and
redirect to the lesson_step route for it. -/
def lessons_body (g : Globals) (b : Backend) (sess : SessionStore)
    (course_uid : String) : HResult :=
    let jar := get_api_session sess
    let cf := get_course_data b g jar course_uid
    let fail : HResult :=
      ⟨.redirect "courses" [],
       sess.flash (.str "Course not found or has no lessons.") "error", [cf.req], g⟩
    match cf.data with
    | none => fail
    | some cd =>
        if !cd.truthy then fail
        else
          match cd.pyGetOpt "steps" with
          | .error e => ⟨.crash e, sess, [cf.req], g⟩
          | .ok stepsOpt =>
              if !(stepsOpt.getD .null).truthy then fail
              else
                match (do
                  let ss ← cd.pySub "steps"
                  let s₀ ← ss.pyIndex 0
                  s₀.pySub "step_number" : Except String Json) with
                | .error e => ⟨.crash e, sess, [cf.req], g⟩
                | .ok first_step_number =>
                    ⟨.redirect "lesson_step"
                      [("course_uid", .str course_uid),
                       ("step_number", first_step_number)],
                     sess, [cf.req], g⟩

def lessons (g : Globals) (b : Backend) (sess : SessionStore)
    (course_uid : String) : HResult :=
  login_required g sess fun _ => lessons_body g b sess course_uid

/-- The `/user_settings` route handler. -/
def user_settings_body (g : Globals) (b : Backend) (sess : SessionStore) : HResult :=
    let jar := get_api_session sess
    let c := doCall b jar .get (apiUrl g "/@me") none
    let errUser : Json := .obj [("username", .str "Error"),
      ("email", .str "Could not load data")]
    match c.resp with
    | none => ⟨.render "user_settings.html" [("user", errUser)], sess, [c.req], g⟩
    | some resp =>
        if 400 ≤ resp.status then
          ⟨.render "user_settings.html" [("user", errUser)], sess, [c.req], g⟩
        else
          ⟨.render "user_settings.html" [("user", resp.body)], sess, [c.req], g⟩

def user_settings (g : Globals) (b : Backend) (sess : SessionStore) : HResult :=
  login_required g sess fun _ => user_settings_body g b sess

/-- A fixed JSON error body used by the API proxy handlers on network
failure. -/
def apiErrorBody : Json := .obj [("error", .str ("API Error: " ++ requestExceptionText))]

/-- The `/api/new_chat` route handler. -/
def api_new_chat_body (g : Globals) (b : Backend) (sess : SessionStore)
    (data : Json) : HResult :=
    match data.pyGetOpt "message" with
    | .error e => ⟨.crash e, sess, [], g⟩
    | .ok msgOpt =>
        let message := msgOpt.getD .null
        if !message.truthy then
          ⟨.jsonResp (.obj [("error", .str "No message provided")]) 400, sess, [], g⟩
        else
          let jar := get_api_session sess
          let c₁ := doCall b jar .post (apiUrl g "/create_session") none
          match c₁.resp with
          | none => ⟨.jsonResp apiErrorBody 500, sess, [c₁.req], g⟩
          | some create_resp =>
              if 400 ≤ create_resp.status then
                ⟨.jsonResp apiErrorBody 500, sess, [c₁.req], g⟩
              else
                match create_resp.body.pyGetOpt "uid" with
                | .error e => ⟨.crash e, sess, [c₁.req], g⟩
                | .ok uidOpt =>
                    let uid := uidOpt.getD .null
                    let c₂ := doCall b c₁.jar .post (apiUrl g "/chat")
                      (some (.obj [("uid", uid), ("message", message)]))
                    match c₂.resp with
                    | none => ⟨.jsonResp apiErrorBody 500, sess, [c₁.req, c₂.req], g⟩
                    | some chat_resp =>
                        if 400 ≤ chat_resp.status then
                          ⟨.jsonResp apiErrorBody 500, sess, [c₁.req, c₂.req], g⟩
                        else
                          ⟨.jsonResp chat_resp.body 200, sess, [c₁.req, c₂.req], g⟩

def api_new_chat (g : Globals) (b : Backend) (sess : SessionStore)
    (data : Json) : HResult :=
  login_required g sess fun _ => api_new_chat_body g b sess data

/-- The `/api/chat/<uid>` route handler. -/
def api_chat_body (g : Globals) (b : Backend) (sess : SessionStore) (uid : String)
    (data : Json) : HResult :=
    match data.pyGetOpt "message" with
    | .error e => ⟨.crash e, sess, [], g⟩
    | .ok msgOpt =>
        let message := msgOpt.getD .null
        let jar := get_api_session sess
        let c := doCall b jar .post (apiUrl g "/chat")
          (some (.obj [("uid", .str uid), ("message", message)]))
        match c.resp with
        | none => ⟨.jsonResp apiErrorBody 500, sess, [c.req], g⟩
        | some chat_resp =>
            if 400 ≤ chat_resp.status then
              ⟨.jsonResp apiErrorBody 500, sess, [c.req], g⟩
            else
              ⟨.jsonResp chat_resp.body 200, sess, [c.req], g⟩

def api_chat (g : Globals) (b : Backend) (sess : SessionStore) (uid : String)
    (data : Json) : HResult :=
  login_required g sess fun _ => api_chat_body g b sess uid data

/-- The `/api/course_chat/<course_uid>/<step_number>` route handler. -/
def api_course_chat_body (g : Globals) (b : Backend) (sess : SessionStore)
    (course_uid : String) (step_number : Nat) (method : Method) (data : Json) : HResult :=
    let jar := get_api_session sess
    let url := apiUrl g ("/course/" ++ course_uid ++ "/step/" ++ toString step_number ++ "/chat")
    match method with
    | .post =>
        let c := doCall b jar .post url (some data)
        match c.resp with
        | none => ⟨.jsonResp apiErrorBody 500, sess, [c.req], g⟩
        | some resp =>
            if 400 ≤ resp.status then ⟨.jsonResp apiErrorBody 500, sess, [c.req], g⟩
            else ⟨.jsonResp resp.body 200, sess, [c.req], g⟩
    | .get =>
        let c := doCall b jar .get url none
        match c.resp with
        | none => ⟨.jsonResp apiErrorBody 500, sess, [c.req], g⟩
        | some resp =>
            if 400 ≤ resp.status then ⟨.jsonResp apiErrorBody 500, sess, [c.req], g⟩
            else ⟨.jsonResp resp.body 200, sess, [c.req], g⟩

def api_course_chat (g : Globals) (b : Backend) (sess : SessionStore)
    (course_uid : String) (step_number : Nat) (method : Method) (data : Json) : HResult :=
  login_required g sess fun _ => api_course_chat_body g b sess course_uid step_number method data

/-- The generator scan in lesson_step over a list of steps: first item
whose `step_number` equals the route argument; Python raises on items
that are not dicts or lack the key, but only if reached before a match. -/
def findStepList : List Json → Nat → Except String (Option Json)
  | [], _ => .ok none
  | item :: rest, n =>
      match item.pySub "step_number" with
      | .error e => .error e
      | .ok v => if pyEqNat v n then .ok (some item) else findStepList rest n

/-- `next((step for step in steps if step['step_number'] == n), None)`,
with Python iteration semantics on non-list values. -/
def findStep (steps : Json) (n : Nat) : Except String (Option Json) :=
  match steps with
  | .arr items => findStepList items n
  | .obj fs => if fs.isEmpty then .ok none else .error "TypeError"
  | .str s => if s.isEmpty then .ok none else .error "TypeError"
  | _ => .error "TypeError"

/-- The `/lessons/<course_uid>/<step_number>` route handler. -/
def lesson_step_body (g : Globals) (b : Backend) (sess : SessionStore)
    (course_uid : String) (step_number : Nat) : HResult :=
    let jar := get_api_session sess
    let cf := get_course_data b g jar course_uid
    match cf.data with
    | none =>
        ⟨.redirect "courses" [], sess.flash (.str "Course not found.") "error",
         [cf.req], g⟩
    | some cd =>
        if !cd.truthy then
          ⟨.redirect "courses" [], sess.flash (.str "Course not found.") "error",
           [cf.req], g⟩
        else
          match cd with
          | .obj cdf =>
              let steps := (cdf.lookup "steps").getD (.arr [])
              match findStep steps step_number with
              | .error e => ⟨.crash e, sess, [cf.req], g⟩
              | .ok none =>
                  ⟨.redirect "lessons" [("course_uid", .str course_uid)],
                   sess.flash (.str ("Lesson " ++ toString step_number ++ " not found.")) "error",
                   [cf.req], g⟩
              | .ok (some current_step) =>
                  let c₂ := doCall b cf.jar .get
                    (apiUrl g ("/course/" ++ course_uid ++ "/step/" ++ toString step_number ++ "/chat")) none
                  match c₂.resp with
                  | none =>
                      ⟨.redirect "courses" [],
                       sess.flash (.str ("Error loading lesson: " ++ requestExceptionText)) "error",
                       [cf.req, c₂.req], g⟩
                  | some resp =>
                      if resp.status = 200 then
                        match resp.body.pyGetD "history" (.arr []) with
                        | .error e => ⟨.crash e, sess, [cf.req, c₂.req], g⟩
                        | .ok history_data =>
                            ⟨.render "lesson_chat.html"
                              [("course_uid", .str course_uid),
                               ("course_title", (cdf.lookup "course_title").getD (.str "Course")),
                               ("steps", (cdf.lookup "steps").getD (.arr [])),
                               ("step", current_step),
                               ("active_step_number", .num step_number),
                               ("history", history_data)],
                             sess, [cf.req, c₂.req], g⟩
                      else
                        ⟨.render "lesson_not_started.html"
                          [("course_uid", .str course_uid),
                           ("course_title", (cdf.lookup "course_title").getD (.str "Course")),
                           ("steps", (cdf.lookup "steps").getD (.arr [])),
                           ("step", current_step),
                           ("active_step_number", .num step_number)],
                         sess, [cf.req, c₂.req], g⟩
          | _ => ⟨.crash "AttributeError", sess, [cf.req], g⟩

def lesson_step (g : Globals) (b : Backend) (sess : SessionStore)
    (course_uid : String) (step_number : Nat) : HResult :=
  login_required g sess fun _ => lesson_step_body g b sess course_uid step_number

/-- The `/lessons/<course_uid>/<step_number>/start` route handler. -/
def start_lesson_body (g : Globals) (b : Backend) (sess : SessionStore)
    (course_uid : String) (step_number : Nat) : HResult :=
    let jar := get_api_session sess
    let c := doCall b jar .post
      (apiUrl g ("/course/" ++ course_uid ++ "/step/" ++ toString step_number ++ "/chat"))
      (some (.obj [("start", .bool true)]))
    let sess₁ :=
      match c.resp with
      | none => sess.flash (.str ("Error starting lesson: " ++ requestExceptionText)) "error"
      | some resp =>
          if 400 ≤ resp.status then
            sess.flash (.str ("Error starting lesson: " ++ requestExceptionText)) "error"
          else sess
    ⟨.redirect "lesson_step"
      [("course_uid", .str course_uid), ("step_number", .num step_number)],
     sess₁, [c.req], g⟩

def start_lesson (g : Globals) (b : Backend) (sess : SessionStore)
    (course_uid : String) (step_number : Nat) : HResult :=
  login_required g sess fun _ => start_lesson_body g b sess course_uid step_number

/-- The `/lessons/<course_uid>/calibrate` route handler. -/
def calibrate_camera_body (g : Globals) (b : Backend) (sess : SessionStore)
    (course_uid : String) : HResult :=
    let jar := get_api_session sess
    let cf := get_course_data b g jar course_uid
    let fail : HResult :=
      ⟨.redirect "courses" [], sess.flash (.str "Course not found.") "error",
       [cf.req], g⟩
    match cf.data with
    | none => fail
    | some cd =>
        if !cd.truthy then fail
        else
          match cd with
          | .obj cdf =>
              ⟨.render "calibrate.html"
                [("course_uid", .str course_uid),
                 ("course_title", (cdf.lookup "course_title").getD (.str "Course")),
                 ("steps", (cdf.lookup "steps").getD (.arr [])),
                 ("active_step_number", .str "calibrate")],
               sess, [cf.req], g⟩
          | _ => ⟨.crash "AttributeError", sess, [cf.req], g⟩

def calibrate_camera (g : Globals) (b : Backend) (sess : SessionStore)
    (course_uid : String) : HResult :=
  login_required g sess fun _ => calibrate_camera_body g b sess course_uid

/-- The `/lessons/<course_uid>/exam` route handler. -/
def take_exam_body (g : Globals) (b : Backend) (sess : SessionStore)
    (course_uid : String) : HResult :=
    let jar := get_api_session sess
    let cf := get_course_data b g jar course_uid
    let fail : HResult :=
      ⟨.redirect "courses" [], sess.flash (.str "Course not found.") "error",
       [cf.req], g⟩
    match cf.data with
    | none => fail
    | some cd =>
        if !cd.truthy then fail
        else
          let c₂ := doCall b cf.jar .get (apiUrl g ("/course/" ++ course_uid ++ "/exam")) none
          match c₂.resp with
          | none =>
              ⟨.redirect "courses" [],
               sess.flash (.str "Could not load exam data.") "error",
               [cf.req, c₂.req], g⟩
          | some resp =>
              if resp.status = 200 then
                match (do
                  let e ← resp.body.pyGetOpt "exam"
                  let u ← resp.body.pyGetOpt "exam_uid"
                  pure (e, u) : Except String (Option Json × Option Json)) with
                | .error e => ⟨.crash e, sess, [cf.req, c₂.req], g⟩
                | .ok (exam_data, exam_uid) =>
                    match cd with
                    | .obj cdf =>
                        ⟨.render "exam.html"
                          [("course_uid", .str course_uid),
                           ("exam_uid", exam_uid.getD .null),
                           ("exam", exam_data.getD .null),
                           ("course_title", (cdf.lookup "course_title").getD (.str "Course")),
                           ("steps", (cdf.lookup "steps").getD (.arr [])),
                           ("active_step_number", .str "exam"),
                           ("socket_url", .str g.MEDIAPIPE_BASE_URL)],
                         sess, [cf.req, c₂.req], g⟩
                    | _ => ⟨.crash "AttributeError", sess, [cf.req, c₂.req], g⟩
              else
                ⟨.redirect "courses" [],
                 sess.flash (.str "Exam not available yet.") "info",
                 [cf.req, c₂.req], g⟩

def take_exam (g : Globals) (b : Backend) (sess : SessionStore)
    (course_uid : String) : HResult :=
  login_required g sess fun _ => take_exam_body g b sess course_uid

/-- The `/api/course/<course_uid>/exam/submit` route handler. On a
backend status other than 200 it echoes the backend status code. -/
def submit_exam_proxy_body (g : Globals) (b : Backend) (sess : SessionStore)
    (course_uid : String) (data : Json) : HResult :=
    let jar := get_api_session sess
    let c := doCall b jar .post (apiUrl g ("/course/" ++ course_uid ++ "/exam/submit"))
      (some data)
    match c.resp with
    | none =>
        ⟨.jsonResp (.obj [("error", .str requestExceptionText)]) 500, sess, [c.req], g⟩
    | some resp =>
        if resp.status = 200 then
          ⟨.jsonResp resp.body 200, sess, [c.req], g⟩
        else
          ⟨.jsonResp (.obj [("error", .str "Submission failed at engine")]) resp.status,
           sess, [c.req], g⟩

def submit_exam_proxy (g : Globals) (b : Backend) (sess : SessionStore)
    (course_uid : String) (data : Json) : HResult :=
  login_required g sess fun _ => submit_exam_proxy_body g b sess course_uid data

/-- The `/lessons/<course_uid>/score` route handler. -/
def exam_score_body (g : Globals) (b : Backend) (sess : SessionStore)
    (course_uid : String) (score total correct_count : Int) : HResult :=
    let jar := get_api_session sess
    let cf := get_course_data b g jar course_uid
    let fail : HResult :=
      ⟨.redirect "courses" [], sess.flash (.str "Course not found.") "error",
       [cf.req], g⟩
    match cf.data with
    | none => fail
    | some cd =>
        if !cd.truthy then fail
        else
          let c₂ := doCall b cf.jar .get (apiUrl g "/@me") none
          let usernameE : Except String Json :=
            match c₂.resp with
            | none => .ok (.str "Student")
            | some user_resp =>
                if user_resp.ok then user_resp.body.pyGetD "username" (.str "Student")
                else .ok (.str "Student")
          match usernameE with
          | .error e => ⟨.crash e, sess, [cf.req, c₂.req], g⟩
          | .ok username =>
              match cd with
              | .obj cdf =>
                  ⟨.render "score.html"
                    [("course_uid", .str course_uid),
                     ("course_title", (cdf.lookup "course_title").getD (.str "Course")),
                     ("steps", (cdf.lookup "steps").getD (.arr [])),
                     ("active_step_number", .str "exam"),
                     ("score", .num score),
                     ("total", .num total),
                     ("correct_count", .num correct_count),
                     ("username", username)],
                   sess, [cf.req, c₂.req], g⟩
              | _ => ⟨.crash "AttributeError", sess, [cf.req, c₂.req], g⟩

def exam_score (g : Globals) (b : Backend) (sess : SessionStore)
    (course_uid : String) (score total correct_count : Int) : HResult :=
  login_required g sess fun _ => exam_score_body g b sess course_uid score total correct_count

/-- The `/google_auth` route handler: forwards the credential to the
backend and, on success, stores the token and user in the local session.
It never writes the `api_cookies` key. The try block catches every
exception, so a missing `token` or `user` field ends as a 500 JSON
reply, after any assignment already performed has taken effect. -/
def google_auth (g : Globals) (b : Backend) (sess : SessionStore)
    (data : Json) : HResult :=
  match data.pyGetOpt "credential" with
  | .error e => ⟨.crash e, sess, [], g⟩
  | .ok credOpt =>
      let credential := credOpt.getD .null
      if !credential.truthy then
        ⟨.jsonResp (.obj [("success", .bool false), ("error", .str "Missing credential")]) 400,
         sess, [], g⟩
      else
        let c := doCall b [] .post (apiUrl g "/auth/google")
          (some (.obj [("credential", credential)]))
        match c.resp with
        | none =>
            ⟨.jsonResp (.obj [("success", .bool false), ("error", .str requestExceptionText)]) 500,
             sess, [c.req], g⟩
        | some resp =>
            if resp.ok then
              match resp.body.pySub "token" with
              | .error e =>
                  ⟨.jsonResp (.obj [("success", .bool false), ("error", .str e)]) 500,
                   sess, [c.req], g⟩
              | .ok tokenV =>
                  let sess₁ := { sess with access_token := some tokenV }
                  match resp.body.pySub "user" with
                  | .error e =>
                      ⟨.jsonResp (.obj [("success", .bool false), ("error", .str e)]) 500,
                       sess₁, [c.req], g⟩
                  | .ok userV =>
                      ⟨.jsonResp (.obj [("success", .bool true)]) 200,
                       { sess₁ with user := some userV }, [c.req], g⟩
            else
              ⟨.jsonResp (.obj [("success", .bool false), ("error", resp.body)]) 401,
               sess, [c.req], g⟩

/-- Backend on which every call raises a RequestException. -/
def failB : Backend := fun _ _ _ _ => none

/-- Backend answering every call with the same fixed response. -/
def constB (r : HttpResponse) : Backend := fun _ _ _ _ => some r

/-- Backend whose login response sets one session cookie. -/
def okLoginB : Backend := fun _ _ _ _ => some ⟨200, .obj [], [("session", "abc")]⟩

/-- Backend whose register response has status 201 and sets a cookie. -/
def okRegisterB : Backend := fun _ _ _ _ => some ⟨201, .obj [], [("session", "reg")]⟩

/-- Backend whose create_session response sets an extra cookie; all other
calls answer 200 with an empty body. -/
def cookieB : Backend := fun _ url _ _ =>
  if url = "http://127.0.0.1:8080/create_session" then
    some ⟨200, .obj [("uid", .str "u1")], [("extra", "x")]⟩
  else some ⟨200, .obj [], []⟩

/-- Backend answering every call with a course whose first step has
step_number 5 and second step has the smaller step_number 2. -/
def stepsB : Backend := fun _ _ _ _ =>
  some ⟨200, .obj [("steps",
    .arr [.obj [("step_number", .num 5)], .obj [("step_number", .num 2)]])], []⟩

/-- Backend answering every call with a course whose steps list is empty. -/
def emptyStepsB : Backend := fun _ _ _ _ =>
  some ⟨200, .obj [("steps", .arr []), ("course_title", .str "T")], []⟩

/-- Backend answering every call with a Google-auth success body. -/
def googleB : Backend := fun _ _ _ _ =>
  some ⟨200, .obj [("token", .str "tok123"), ("user", .obj [("name", .str "U")])], []⟩

/-- A session of a logged-in user holding one backend cookie. -/
def loggedSession : SessionStore := ⟨some [("sid", "1")], none, none, []⟩

/-- The backend paths of the interface contract (endpoints that app.py is
allowed to contact). -/
inductive AllowedPath : String → Prop where
  | loginP : AllowedPath "/login"
  | registerP : AllowedPath "/register"
  | logoutP : AllowedPath "/logout"
  | meP : AllowedPath "/@me"
  | listSessionsP : AllowedPath "/list_sessions"
  | coursesP : AllowedPath "/courses"
  | generateCourseP : AllowedPath "/generate_course"
  | createSessionP : AllowedPath "/create_session"
  | chatEndpointP : AllowedPath "/chat"
  | courseP (u : String) : AllowedPath ("/course/" ++ u)
  | stepChatP (u s : String) : AllowedPath ("/course/" ++ u ++ "/step/" ++ s ++ "/chat")
  | examP (u : String) : AllowedPath ("/course/" ++ u ++ "/exam")
  | examSubmitP (u : String) : AllowedPath ("/course/" ++ u ++ "/exam/submit")
  | getSessionP (u : String) : AllowedPath ("/get_session/" ++ u)
  | authGoogleP : AllowedPath "/auth/google"

/-- The request targets the backend origin on an allowed endpoint path. -/
def requestAllowed (g : Globals) (r : OutRequest) : Prop :=
  ∃ p, r.url = apiUrl g p ∧ AllowedPath p

/-- Every outgoing request recorded by a handler result is allowed. -/
def TraceOk (g : Globals) (res : HResult) : Prop :=
  ∀ r ∈ res.trace, requestAllowed g r

/-- The response is not an uncaught Python exception. -/
def notCrash (r : FrontResponse) : Prop := ∀ e, r ≠ FrontResponse.crash e

/-- The handler appended exactly one flash message of category error. -/
def addsErrorFlash (old : SessionStore) (res : HResult) : Prop :=
  ∃ m, res.session.flashes = old.flashes ++ [(m, "error")]

/-- The response is a JSON body containing an error field, with an
error-class status code. -/
def jsonError (r : FrontResponse) : Prop :=
  ∃ fields code, r = FrontResponse.jsonResp (.obj fields) code ∧
    (∃ v, ("error", v) ∈ fields) ∧ 400 ≤ code

/-- A handler outcome that surfaces a failure without crashing: no
uncaught exception, and either an error flash was added or the response
is a JSON error body. -/
def failureSurfaced (sess : SessionStore) (res : HResult) : Prop :=
  notCrash res.response ∧ (addsErrorFlash sess res ∨ jsonError res.response)

/-- Backend answering every call with a fixed-status response carrying a
small JSON body and no cookies. -/
def statusB (st : Nat) : Backend := fun _ _ _ _ => some ⟨st, .obj [("detail", .str "x")], []⟩

/-- A concrete handler thunk, used to witness that login_required never
runs the wrapped body for a logged-out session. -/
def dummyHandler : Unit → HResult :=
  fun _ => ⟨.render "x.html" [], emptySession, [], defaultGlobals⟩

/-- Status code of a JSON response (0 for the other response forms). -/
def respStatus : FrontResponse → Nat
  | .jsonResp _ k => k
  | _ => 0

/-- Every request among the first ones of the trace (at most one) is sent
with a cookie jar holding exactly the stored api_cookies, as loaded by
get_api_session. -/
def firstCallCookies (res : HResult) (ck : Cookies) : Prop :=
  ∀ r ∈ res.trace.take 1, r.cookies = Cookies.update [] ck

/-- Backend that accepts create_session (setting no cookie) and answers
503 on every other call. -/
def createOkChatErrB : Backend := fun _ url _ _ =>
  if url = "http://127.0.0.1:8080/create_session" then
    some ⟨200, .obj [("uid", .str "u1")], []⟩
  else some ⟨503, .obj [("detail", .str "x")], []⟩

/-- Backend whose course response holds one step and sets a cookie; every
other call answers 200 with an empty object body. -/
def courseCookieB : Backend := fun _ url _ _ =>
  if url = "http://127.0.0.1:8080/course/c1" then
    some ⟨200, .obj [("steps", .arr [.obj [("step_number", .num 1)]])], [("extra", "x")]⟩
  else some ⟨200, .obj [], []⟩

theorem doCall_req (b : Backend) (jar : Cookies) (m : Method) (u : String)
    (p : Option Json) : (doCall b jar m u p).req = ⟨m, u, p, jar⟩ := by
  unfold doCall
  rcases b m u p jar with _ | r <;> rfl

theorem get_course_data_req (b : Backend) (g : Globals) (jar : Cookies) (u : String) :
    (get_course_data b g jar u).req = ⟨.get, apiUrl g ("/course/" ++ u), none, jar⟩ := by
  unfold get_course_data
  rcases h : (doCall b jar .get (apiUrl g ("/course/" ++ u)) none).resp with _ | r
  · simp only [h, doCall_req]
  · simp only [h]
    split <;> simp only [doCall_req]

theorem doCall_req_allowed (g : Globals) (b : Backend) (jar : Cookies) (m : Method)
    (p : Option Json) (path : String) (hp : AllowedPath path) :
    requestAllowed g ((doCall b jar m (apiUrl g path) p).req) :=
  ⟨path, by rw [doCall_req], hp⟩

theorem get_course_data_allowed (g : Globals) (b : Backend) (jar : Cookies) (u : String) :
    requestAllowed g ((get_course_data b g jar u).req) :=
  ⟨"/course/" ++ u, by rw [get_course_data_req], .courseP u⟩

theorem traceOk_loginRedirect (g : Globals) (sess : SessionStore) :
    TraceOk g (loginRedirect g sess) := by
  intro r hr
  simp [loginRedirect] at hr

theorem traceOk_login_required (g : Globals) (sess : SessionStore) (f : Unit → HResult)
    (h : TraceOk g (f ())) : TraceOk g (login_required g sess f) := by
  unfold login_required
  cases sess.api_cookies
  · exact traceOk_loginRedirect g sess
  · exact h

theorem chat_page_body_trace_ok (g : Globals) (b : Backend) (sess : SessionStore)
    (uid : String) : TraceOk g (chat_page_body g b sess uid) := by
  intro r hr
  simp only [chat_page_body] at hr
  split at hr <;>
    [skip; split at hr] <;>
    · simp only [List.mem_singleton] at hr
      subst hr
      exact doCall_req_allowed g b _ _ _ _ (.getSessionP uid)

theorem index_trace_ok (g : Globals) (sess : SessionStore) :
    TraceOk g (index g sess) := by
  intro r hr
  simp [index] at hr

theorem homepage_body_trace_ok (g : Globals) (sess : SessionStore) :
    TraceOk g (homepage_body g sess) := by
  intro r hr
  simp [homepage_body] at hr

theorem login_trace_ok (g : Globals) (b : Backend) (sess : SessionStore)
    (method : Method) (form : AuthForm) : TraceOk g (login g b sess method form) := by
  intro r hr
  simp only [login] at hr
  repeat' split at hr
  all_goals first
    | exact absurd hr (List.not_mem_nil r)
    | (simp only [List.mem_singleton] at hr; subst hr
       exact doCall_req_allowed g b _ _ _ _ .loginP)

theorem register_trace_ok (g : Globals) (b : Backend) (sess : SessionStore)
    (method : Method) (form : AuthForm) : TraceOk g (register g b sess method form) := by
  intro r hr
  simp only [register] at hr
  repeat' split at hr
  all_goals first
    | exact absurd hr (List.not_mem_nil r)
    | (simp only [List.mem_singleton] at hr; subst hr
       exact doCall_req_allowed g b _ _ _ _ .registerP)

theorem logout_trace_ok (g : Globals) (b : Backend) (sess : SessionStore) :
    TraceOk g (logout g b sess) := by
  intro r hr
  simp only [logout] at hr
  repeat' split at hr
  all_goals first
    | exact absurd hr (List.not_mem_nil r)
    | (simp only [List.mem_singleton] at hr; subst hr
       exact doCall_req_allowed g b _ _ _ _ .logoutP)

theorem inject_global_data_trace_ok (g : Globals) (b : Backend) (sess : SessionStore) :
    ∀ r ∈ (inject_global_data g b sess).2, requestAllowed g r := by
  intro r hr
  simp only [inject_global_data] at hr
  repeat' split at hr
  all_goals first
    | exact absurd hr (List.not_mem_nil r)
    | (simp only [List.mem_singleton] at hr; subst hr
       exact doCall_req_allowed g b _ _ _ _ .meP)
    | (simp only [List.mem_cons, List.not_mem_nil, or_false] at hr
       rcases hr with rfl | rfl
       · exact doCall_req_allowed g b _ _ _ _ .meP
       · exact doCall_req_allowed g b _ _ _ _ .listSessionsP)

theorem courses_body_trace_ok (g : Globals) (b : Backend) (sess : SessionStore) :
    TraceOk g (courses_body g b sess) := by
  intro r hr
  simp only [courses_body] at hr
  repeat' split at hr
  all_goals first
    | exact absurd hr (List.not_mem_nil r)
    | (simp only [List.mem_singleton] at hr; subst hr
       exact doCall_req_allowed g b _ _ _ _ .coursesP)

theorem generate_course_body_trace_ok (g : Globals) (b : Backend) (sess : SessionStore)
    (topic : Option String) : TraceOk g (generate_course_body g b sess topic) := by
  intro r hr
  simp only [generate_course_body] at hr
  repeat' split at hr
  all_goals first
    | exact absurd hr (List.not_mem_nil r)
    | (simp only [List.mem_singleton] at hr; subst hr
       exact doCall_req_allowed g b _ _ _ _ .generateCourseP)

theorem lessons_body_trace_ok (g : Globals) (b : Backend) (sess : SessionStore)
    (course_uid : String) : TraceOk g (lessons_body g b sess course_uid) := by
  intro r hr
  simp only [lessons_body] at hr
  repeat' split at hr
  all_goals first
    | exact absurd hr (List.not_mem_nil r)
    | (simp only [List.mem_singleton] at hr; subst hr
       exact get_course_data_allowed g b _ course_uid)

theorem user_settings_body_trace_ok (g : Globals) (b : Backend) (sess : SessionStore) :
    TraceOk g (user_settings_body g b sess) := by
  intro r hr
  simp only [user_settings_body] at hr
  repeat' split at hr
  all_goals first
    | exact absurd hr (List.not_mem_nil r)
    | (simp only [List.mem_singleton] at hr; subst hr
       exact doCall_req_allowed g b _ _ _ _ .meP)

theorem api_new_chat_body_trace_ok (g : Globals) (b : Backend) (sess : SessionStore)
    (data : Json) : TraceOk g (api_new_chat_body g b sess data) := by
  intro r hr
  simp only [api_new_chat_body] at hr
  repeat' split at hr
  all_goals first
    | exact absurd hr (List.not_mem_nil r)
    | (simp only [List.mem_singleton] at hr; subst hr
       exact doCall_req_allowed g b _ _ _ _ .createSessionP)
    | (simp only [List.mem_cons, List.not_mem_nil, or_false] at hr
       rcases hr with rfl | rfl
       · exact doCall_req_allowed g b _ _ _ _ .createSessionP
       · exact doCall_req_allowed g b _ _ _ _ .chatEndpointP)

theorem api_chat_body_trace_ok (g : Globals) (b : Backend) (sess : SessionStore)
    (uid : String) (data : Json) : TraceOk g (api_chat_body g b sess uid data) := by
  intro r hr
  simp only [api_chat_body] at hr
  repeat' split at hr
  all_goals first
    | exact absurd hr (List.not_mem_nil r)
    | (simp only [List.mem_singleton] at hr; subst hr
       exact doCall_req_allowed g b _ _ _ _ .chatEndpointP)

theorem api_course_chat_body_trace_ok (g : Globals) (b : Backend) (sess : SessionStore)
    (course_uid : String) (step_number : Nat) (method : Method) (data : Json) :
    TraceOk g (api_course_chat_body g b sess course_uid step_number method data) := by
  intro r hr
  simp only [api_course_chat_body] at hr
  repeat' split at hr
  all_goals first
    | exact absurd hr (List.not_mem_nil r)
    | (simp only [List.mem_singleton] at hr; subst hr
       exact doCall_req_allowed g b _ _ _ _ (.stepChatP course_uid (toString step_number)))

theorem lesson_step_body_trace_ok (g : Globals) (b : Backend) (sess : SessionStore)
    (course_uid : String) (step_number : Nat) :
    TraceOk g (lesson_step_body g b sess course_uid step_number) := by
  intro r hr
  simp only [lesson_step_body] at hr
  repeat' split at hr
  all_goals first
    | exact absurd hr (List.not_mem_nil r)
    | (simp only [List.mem_singleton] at hr; subst hr
       exact get_course_data_allowed g b _ course_uid)
    | (simp only [List.mem_cons, List.not_mem_nil, or_false] at hr
       rcases hr with rfl | rfl
       · exact get_course_data_allowed g b _ course_uid
       · exact doCall_req_allowed g b _ _ _ _ (.stepChatP course_uid (toString step_number)))

theorem start_lesson_body_trace_ok (g : Globals) (b : Backend) (sess : SessionStore)
    (course_uid : String) (step_number : Nat) :
    TraceOk g (start_lesson_body g b sess course_uid step_number) := by
  intro r hr
  simp only [start_lesson_body] at hr
  simp only [List.mem_singleton] at hr
  subst hr
  exact doCall_req_allowed g b _ _ _ _ (.stepChatP course_uid (toString step_number))

theorem calibrate_camera_body_trace_ok (g : Globals) (b : Backend) (sess : SessionStore)
    (course_uid : String) : TraceOk g (calibrate_camera_body g b sess course_uid) := by
  intro r hr
  simp only [calibrate_camera_body] at hr
  repeat' split at hr
  all_goals first
    | exact absurd hr (List.not_mem_nil r)
    | (simp only [List.mem_singleton] at hr; subst hr
       exact get_course_data_allowed g b _ course_uid)

theorem take_exam_body_trace_ok (g : Globals) (b : Backend) (sess : SessionStore)
    (course_uid : String) : TraceOk g (take_exam_body g b sess course_uid) := by
  intro r hr
  simp only [take_exam_body] at hr
  repeat' split at hr
  all_goals first
    | exact absurd hr (List.not_mem_nil r)
    | (simp only [List.mem_singleton] at hr; subst hr
       exact get_course_data_allowed g b _ course_uid)
    | (simp only [List.mem_cons, List.not_mem_nil, or_false] at hr
       rcases hr with rfl | rfl
       · exact get_course_data_allowed g b _ course_uid
       · exact doCall_req_allowed g b _ _ _ _ (.examP course_uid))

theorem submit_exam_proxy_body_trace_ok (g : Globals) (b : Backend) (sess : SessionStore)
    (course_uid : String) (data : Json) :
    TraceOk g (submit_exam_proxy_body g b sess course_uid data) := by
  intro r hr
  simp only [submit_exam_proxy_body] at hr
  repeat' split at hr
  all_goals first
    | exact absurd hr (List.not_mem_nil r)
    | (simp only [List.mem_singleton] at hr; subst hr
       exact doCall_req_allowed g b _ _ _ _ (.examSubmitP course_uid))

theorem exam_score_body_trace_ok (g : Globals) (b : Backend) (sess : SessionStore)
    (course_uid : String) (score total correct_count : Int) :
    TraceOk g (exam_score_body g b sess course_uid score total correct_count) := by
  intro r hr
  simp only [exam_score_body] at hr
  repeat' split at hr
  all_goals first
    | exact absurd hr (List.not_mem_nil r)
    | (simp only [List.mem_singleton] at hr; subst hr
       exact get_course_data_allowed g b _ course_uid)
    | (simp only [List.mem_cons, List.not_mem_nil, or_false] at hr
       rcases hr with rfl | rfl
       · exact get_course_data_allowed g b _ course_uid
       · exact doCall_req_allowed g b _ _ _ _ .meP)

theorem google_auth_trace_ok (g : Globals) (b : Backend) (sess : SessionStore)
    (data : Json) : TraceOk g (google_auth g b sess data) := by
  intro r hr
  simp only [google_auth] at hr
  repeat' split at hr
  all_goals first
    | exact absurd hr (List.not_mem_nil r)
    | (simp only [List.mem_singleton] at hr; subst hr
       exact doCall_req_allowed g b _ _ _ _ .authGoogleP)

theorem login_required_globals_eq (g : Globals) (sess : SessionStore) (f : Unit → HResult)
    (h : (f ()).globals = g) : (login_required g sess f).globals = g := by
  unfold login_required
  cases sess.api_cookies
  · rfl
  · exact h

theorem index_globals_eq (g : Globals) (sess : SessionStore) :
    (index g sess).globals = g := rfl

theorem login_globals_eq (g : Globals) (b : Backend) (sess : SessionStore)
    (method : Method) (form : AuthForm) : (login g b sess method form).globals = g := by
  simp only [login]
  repeat' split
  all_goals rfl

theorem register_globals_eq (g : Globals) (b : Backend) (sess : SessionStore)
    (method : Method) (form : AuthForm) : (register g b sess method form).globals = g := by
  simp only [register]
  repeat' split
  all_goals rfl

theorem logout_globals_eq (g : Globals) (b : Backend) (sess : SessionStore) :
    (logout g b sess).globals = g := rfl

theorem google_auth_globals_eq (g : Globals) (b : Backend) (sess : SessionStore)
    (data : Json) : (google_auth g b sess data).globals = g := by
  simp only [google_auth]
  repeat' split
  all_goals rfl

theorem homepage_globals_eq (g : Globals) (sess : SessionStore) :
    (homepage g sess).globals = g :=
  login_required_globals_eq g sess _ rfl

theorem chat_page_globals_eq (g : Globals) (b : Backend) (sess : SessionStore)
    (uid : String) : (chat_page g b sess uid).globals = g := by
  refine login_required_globals_eq g sess _ ?_
  simp only [chat_page_body]
  repeat' split
  all_goals rfl

theorem courses_globals_eq (g : Globals) (b : Backend) (sess : SessionStore) :
    (courses g b sess).globals = g := by
  refine login_required_globals_eq g sess _ ?_
  simp only [courses_body]
  repeat' split
  all_goals rfl

theorem generate_course_globals_eq (g : Globals) (b : Backend) (sess : SessionStore)
    (topic : Option String) : (generate_course g b sess topic).globals = g := by
  refine login_required_globals_eq g sess _ ?_
  simp only [generate_course_body]
  repeat' split
  all_goals rfl

theorem lessons_globals_eq (g : Globals) (b : Backend) (sess : SessionStore)
    (course_uid : String) : (lessons g b sess course_uid).globals = g := by
  refine login_required_globals_eq g sess _ ?_
  simp only [lessons_body]
  repeat' split
  all_goals rfl

theorem user_settings_globals_eq (g : Globals) (b : Backend) (sess : SessionStore) :
    (user_settings g b sess).globals = g := by
  refine login_required_globals_eq g sess _ ?_
  simp only [user_settings_body]
  repeat' split
  all_goals rfl

theorem api_new_chat_globals_eq (g : Globals) (b : Backend) (sess : SessionStore)
    (data : Json) : (api_new_chat g b sess data).globals = g := by
  refine login_required_globals_eq g sess _ ?_
  simp only [api_new_chat_body]
  repeat' split
  all_goals rfl

theorem api_chat_globals_eq (g : Globals) (b : Backend) (sess : SessionStore)
    (uid : String) (data : Json) : (api_chat g b sess uid data).globals = g := by
  refine login_required_globals_eq g sess _ ?_
  simp only [api_chat_body]
  repeat' split
  all_goals rfl

theorem api_course_chat_globals_eq (g : Globals) (b : Backend) (sess : SessionStore)
    (course_uid : String) (step_number : Nat) (method : Method) (data : Json) :
    (api_course_chat g b sess course_uid step_number method data).globals = g := by
  refine login_required_globals_eq g sess _ ?_
  simp only [api_course_chat_body]
  repeat' split
  all_goals rfl

theorem lesson_step_globals_eq (g : Globals) (b : Backend) (sess : SessionStore)
    (course_uid : String) (step_number : Nat) :
    (lesson_step g b sess course_uid step_number).globals = g := by
  refine login_required_globals_eq g sess _ ?_
  simp only [lesson_step_body]
  repeat' split
  all_goals rfl

theorem start_lesson_globals_eq (g : Globals) (b : Backend) (sess : SessionStore)
    (course_uid : String) (step_number : Nat) :
    (start_lesson g b sess course_uid step_number).globals = g := by
  refine login_required_globals_eq g sess _ ?_
  rfl

theorem calibrate_camera_globals_eq (g : Globals) (b : Backend) (sess : SessionStore)
    (course_uid : String) : (calibrate_camera g b sess course_uid).globals = g := by
  refine login_required_globals_eq g sess _ ?_
  simp only [calibrate_camera_body]
  repeat' split
  all_goals rfl

theorem take_exam_globals_eq (g : Globals) (b : Backend) (sess : SessionStore)
    (course_uid : String) : (take_exam g b sess course_uid).globals = g := by
  refine login_required_globals_eq g sess _ ?_
  simp only [take_exam_body]
  repeat' split
  all_goals rfl

theorem submit_exam_proxy_globals_eq (g : Globals) (b : Backend) (sess : SessionStore)
    (course_uid : String) (data : Json) :
    (submit_exam_proxy g b sess course_uid data).globals = g := by
  refine login_required_globals_eq g sess _ ?_
  simp only [submit_exam_proxy_body]
  repeat' split
  all_goals rfl

theorem exam_score_globals_eq (g : Globals) (b : Backend) (sess : SessionStore)
    (course_uid : String) (score total correct_count : Int) :
    (exam_score g b sess course_uid score total correct_count).globals = g := by
  refine login_required_globals_eq g sess _ ?_
  simp only [exam_score_body]
  repeat' split
  all_goals rfl

/-- C1: for every request to a route wrapped in login_required, when the
key api_cookies is absent from the session the handler flashes an error
and redirects to the login page, makes no backend call, and the wrapped
body never runs (the result is independent of it); when the key is
present the wrapped body runs. The user is treated as logged out exactly
when the key is missing. -/
theorem login_required_gates_on_api_cookies :
    (∀ (g : Globals) (tok usr : Option Json) (fl : List (Json × String))
        (f : Unit → HResult),
      login_required g ⟨none, tok, usr, fl⟩ f = loginRedirect g ⟨none, tok, usr, fl⟩ ∧
      (login_required g ⟨none, tok, usr, fl⟩ f).response = .redirect "login" [] ∧
      (login_required g ⟨none, tok, usr, fl⟩ f).trace = [] ∧
      (login_required g ⟨none, tok, usr, fl⟩ f).session.flashes =
        fl ++ [(.str "Please log in to access this page.", "error")]) ∧
    (∀ (g : Globals) (ck : Cookies) (tok usr : Option Json) (fl : List (Json × String))
        (f : Unit → HResult),
      login_required g ⟨some ck, tok, usr, fl⟩ f = f ()) ∧
    (∀ (g : Globals) (b : Backend) (tok usr : Option Json) (fl : List (Json × String)),
      homepage g ⟨none, tok, usr, fl⟩ = loginRedirect g ⟨none, tok, usr, fl⟩ ∧
      (∀ uid, chat_page g b ⟨none, tok, usr, fl⟩ uid = loginRedirect g ⟨none, tok, usr, fl⟩) ∧
      courses g b ⟨none, tok, usr, fl⟩ = loginRedirect g ⟨none, tok, usr, fl⟩ ∧
      (∀ topic, generate_course g b ⟨none, tok, usr, fl⟩ topic = loginRedirect g ⟨none, tok, usr, fl⟩) ∧
      (∀ u, lessons g b ⟨none, tok, usr, fl⟩ u = loginRedirect g ⟨none, tok, usr, fl⟩) ∧
      user_settings g b ⟨none, tok, usr, fl⟩ = loginRedirect g ⟨none, tok, usr, fl⟩ ∧
      (∀ d, api_new_chat g b ⟨none, tok, usr, fl⟩ d = loginRedirect g ⟨none, tok, usr, fl⟩) ∧
      (∀ u d, api_chat g b ⟨none, tok, usr, fl⟩ u d = loginRedirect g ⟨none, tok, usr, fl⟩) ∧
      (∀ u n m d, api_course_chat g b ⟨none, tok, usr, fl⟩ u n m d = loginRedirect g ⟨none, tok, usr, fl⟩) ∧
      (∀ u n, lesson_step g b ⟨none, tok, usr, fl⟩ u n = loginRedirect g ⟨none, tok, usr, fl⟩) ∧
      (∀ u n, start_lesson g b ⟨none, tok, usr, fl⟩ u n = loginRedirect g ⟨none, tok, usr, fl⟩) ∧
      (∀ u, calibrate_camera g b ⟨none, tok, usr, fl⟩ u = loginRedirect g ⟨none, tok, usr, fl⟩) ∧
      (∀ u, take_exam g b ⟨none, tok, usr, fl⟩ u = loginRedirect g ⟨none, tok, usr, fl⟩) ∧
      (∀ u d, submit_exam_proxy g b ⟨none, tok, usr, fl⟩ u d = loginRedirect g ⟨none, tok, usr, fl⟩) ∧
      (∀ u s t c, exam_score g b ⟨none, tok, usr, fl⟩ u s t c = loginRedirect g ⟨none, tok, usr, fl⟩)) := by
  refine ⟨fun g tok usr fl f => ⟨rfl, rfl, rfl, rfl⟩,
          fun g ck tok usr fl f => rfl,
          fun g b tok usr fl => ?_⟩
  exact ⟨rfl, fun _ => rfl, rfl, fun _ => rfl, fun _ => rfl, rfl, fun _ => rfl,
         fun _ _ => rfl, fun _ _ _ _ => rfl, fun _ _ => rfl, fun _ _ => rfl,
         fun _ => rfl, fun _ => rfl, fun _ _ => rfl, fun _ _ _ _ => rfl⟩

/-- C9: logout clears the entire local session regardless of login state
and of backend success or network failure; the resulting session holds
only the logout flash (in particular no api_cookies key), and the
response is a redirect to the login page. -/
theorem logout_always_clears_session :
    ∀ (g : Globals) (b : Backend) (sess : SessionStore),
      (logout g b sess).session =
        ⟨none, none, none, [(.str "You have been logged out.", "success")]⟩ ∧
      (logout g b sess).session.api_cookies = none ∧
      (logout g b sess).response = .redirect "login" [] :=
  fun g b sess => ⟨rfl, rfl, rfl⟩

/-- C8: no route handler writes any state shared across requests: the
module globals left behind by every handler equal the globals it was
given (every other mutable effect in the embedding is confined to the
per-user SessionStore, which holds only the keys api_cookies,
access_token, user and the flash list). -/
theorem handlers_preserve_shared_state :
    (∀ g sess, (index g sess).globals = g) ∧
    (∀ g b sess method form, (login g b sess method form).globals = g) ∧
    (∀ g b sess method form, (register g b sess method form).globals = g) ∧
    (∀ g b sess, (logout g b sess).globals = g) ∧
    (∀ g b sess d, (google_auth g b sess d).globals = g) ∧
    (∀ g sess, (homepage g sess).globals = g) ∧
    (∀ g b sess u, (chat_page g b sess u).globals = g) ∧
    (∀ g b sess, (courses g b sess).globals = g) ∧
    (∀ g b sess t, (generate_course g b sess t).globals = g) ∧
    (∀ g b sess u, (lessons g b sess u).globals = g) ∧
    (∀ g b sess, (user_settings g b sess).globals = g) ∧
    (∀ g b sess d, (api_new_chat g b sess d).globals = g) ∧
    (∀ g b sess u d, (api_chat g b sess u d).globals = g) ∧
    (∀ g b sess u n m d, (api_course_chat g b sess u n m d).globals = g) ∧
    (∀ g b sess u n, (lesson_step g b sess u n).globals = g) ∧
    (∀ g b sess u n, (start_lesson g b sess u n).globals = g) ∧
    (∀ g b sess u, (calibrate_camera g b sess u).globals = g) ∧
    (∀ g b sess u, (take_exam g b sess u).globals = g) ∧
    (∀ g b sess u d, (submit_exam_proxy g b sess u d).globals = g) ∧
    (∀ g b sess u s t c, (exam_score g b sess u s t c).globals = g) :=
  ⟨index_globals_eq, login_globals_eq, register_globals_eq, logout_globals_eq,
   google_auth_globals_eq, homepage_globals_eq, chat_page_globals_eq,
   courses_globals_eq, generate_course_globals_eq, lessons_globals_eq,
   user_settings_globals_eq, api_new_chat_globals_eq, api_chat_globals_eq,
   api_course_chat_globals_eq, lesson_step_globals_eq, start_lesson_globals_eq,
   calibrate_camera_globals_eq, take_exam_globals_eq, submit_exam_proxy_globals_eq,
   exam_score_globals_eq⟩

/-- C7: every outgoing HTTP request issued by any route handler (and by
the sidebar context processor) targets the backend origin API_BASE_URL
on one of the endpoints of the interface contract; no other origin is
contacted from the server side. -/
theorem outgoing_requests_stay_on_api_base :
    (∀ g sess, TraceOk g (index g sess)) ∧
    (∀ g b sess method form, TraceOk g (login g b sess method form)) ∧
    (∀ g b sess method form, TraceOk g (register g b sess method form)) ∧
    (∀ g b sess, TraceOk g (logout g b sess)) ∧
    (∀ g b sess d, TraceOk g (google_auth g b sess d)) ∧
    (∀ g b sess, ∀ r ∈ (inject_global_data g b sess).2, requestAllowed g r) ∧
    (∀ g sess, TraceOk g (homepage g sess)) ∧
    (∀ g b sess u, TraceOk g (chat_page g b sess u)) ∧
    (∀ g b sess, TraceOk g (courses g b sess)) ∧
    (∀ g b sess t, TraceOk g (generate_course g b sess t)) ∧
    (∀ g b sess u, TraceOk g (lessons g b sess u)) ∧
    (∀ g b sess, TraceOk g (user_settings g b sess)) ∧
    (∀ g b sess d, TraceOk g (api_new_chat g b sess d)) ∧
    (∀ g b sess u d, TraceOk g (api_chat g b sess u d)) ∧
    (∀ g b sess u n m d, TraceOk g (api_course_chat g b sess u n m d)) ∧
    (∀ g b sess u n, TraceOk g (lesson_step g b sess u n)) ∧
    (∀ g b sess u n, TraceOk g (start_lesson g b sess u n)) ∧
    (∀ g b sess u, TraceOk g (calibrate_camera g b sess u)) ∧
    (∀ g b sess u, TraceOk g (take_exam g b sess u)) ∧
    (∀ g b sess u d, TraceOk g (submit_exam_proxy g b sess u d)) ∧
    (∀ g b sess u s t c, TraceOk g (exam_score g b sess u s t c)) :=
  ⟨index_trace_ok, login_trace_ok, register_trace_ok, logout_trace_ok,
   google_auth_trace_ok, inject_global_data_trace_ok,
   fun g sess => traceOk_login_required g sess _ (homepage_body_trace_ok g sess),
   fun g b sess u => traceOk_login_required g sess _ (chat_page_body_trace_ok g b sess u),
   fun g b sess => traceOk_login_required g sess _ (courses_body_trace_ok g b sess),
   fun g b sess t => traceOk_login_required g sess _ (generate_course_body_trace_ok g b sess t),
   fun g b sess u => traceOk_login_required g sess _ (lessons_body_trace_ok g b sess u),
   fun g b sess => traceOk_login_required g sess _ (user_settings_body_trace_ok g b sess),
   fun g b sess d => traceOk_login_required g sess _ (api_new_chat_body_trace_ok g b sess d),
   fun g b sess u d => traceOk_login_required g sess _ (api_chat_body_trace_ok g b sess u d),
   fun g b sess u n m d => traceOk_login_required g sess _ (api_course_chat_body_trace_ok g b sess u n m d),
   fun g b sess u n => traceOk_login_required g sess _ (lesson_step_body_trace_ok g b sess u n),
   fun g b sess u n => traceOk_login_required g sess _ (start_lesson_body_trace_ok g b sess u n),
   fun g b sess u => traceOk_login_required g sess _ (calibrate_camera_body_trace_ok g b sess u),
   fun g b sess u => traceOk_login_required g sess _ (take_exam_body_trace_ok g b sess u),
   fun g b sess u d => traceOk_login_required g sess _ (submit_exam_proxy_body_trace_ok g b sess u d),
   fun g b sess u s t c => traceOk_login_required g sess _ (exam_score_body_trace_ok g b sess u s t c)⟩

/-- Witness for C7: the request issued by the courses handler of a
logged-in user against a failing backend is an allowed backend request. -/
theorem outgoing_requests_stay_on_api_base_witness :
    requestAllowed defaultGlobals
      ⟨.get, apiUrl defaultGlobals "/courses", none, Cookies.update [] [("sid", "1")]⟩ := by
  have h := outgoing_requests_stay_on_api_base.2.2.2.2.2.2.2.2.1
    defaultGlobals failB loggedSession
  exact h _ (List.Mem.head _)

/-- C2: on POST, when the backend call succeeds, login and register
store the cookies of the backend session under api_cookies and redirect
to the homepage; success means response.ok for login but exactly status
201 for register: a 200 register response stores nothing and does not
redirect home. -/
theorem login_register_success_stores_cookies :
    (∀ (g : Globals) (b : Backend) (sess : SessionStore) (form : AuthForm)
        (resp : HttpResponse),
      strTruthy form.password = true →
      (strTruthy form.email = true ∨ strTruthy form.username = true) →
      b .post (apiUrl g "/login") (some (loginPayload form)) [] = some resp →
      resp.ok = true →
      login g b sess .post form =
        ⟨.redirect "homepage" [],
         { sess with api_cookies := some (Cookies.update [] resp.setCookies) },
         [⟨.post, apiUrl g "/login", some (loginPayload form), []⟩], g⟩) ∧
    (∀ (g : Globals) (b : Backend) (sess : SessionStore) (form : AuthForm)
        (resp : HttpResponse),
      b .post (apiUrl g "/register") (some (registerPayload form)) [] = some resp →
      resp.status = 201 →
      register g b sess .post form =
        ⟨.redirect "homepage" [],
         { sess with api_cookies := some (Cookies.update [] resp.setCookies) },
         [⟨.post, apiUrl g "/register", some (registerPayload form), []⟩], g⟩) ∧
    (∀ (g : Globals) (b : Backend) (sess : SessionStore) (form : AuthForm)
        (resp : HttpResponse),
      b .post (apiUrl g "/register") (some (registerPayload form)) [] = some resp →
      resp.status = 200 →
      (register g b sess .post form).session.api_cookies = sess.api_cookies ∧
      ∀ args, (register g b sess .post form).response ≠ .redirect "homepage" args) := by
  refine ⟨?_, ?_, ?_⟩
  · intro g b sess form resp h1 h2 hb hok
    have hguard : (!strTruthy form.password ||
        (!strTruthy form.email && !strTruthy form.username)) = false := by
      rcases h2 with h2 | h2 <;> simp [h1, h2]
    simp only [login, doCall, hguard, hb, hok, Bool.false_eq_true, if_false, if_true]
  · intro g b sess form resp hb hst
    simp only [register, doCall, hb, hst, if_true]
  · intro g b sess form resp hb hst
    have h201 : resp.status ≠ 201 := by omega
    simp only [register, doCall, hb, hst]
    constructor
    · split
      · simp [h201] at *
      · rcases hh : resp.body.pyGetD "error" (Json.str "Registration failed") with e | msg <;>
          simp [hh, SessionStore.flash]
    · intro args
      split
      · simp [h201] at *
      · rcases hh : resp.body.pyGetD "error" (Json.str "Registration failed") with e | msg <;>
          simp [hh]

/-- Witness for C2 at concrete inputs: a 200 login stores the backend
cookie, a 201 register stores it, and a 200 register stores nothing. -/
theorem login_register_success_stores_cookies_witness :
    (login defaultGlobals okLoginB emptySession .post
        ⟨some "e@x", none, some "pw"⟩).session.api_cookies = some [("session", "abc")] ∧
    (register defaultGlobals okRegisterB emptySession .post
        ⟨some "e@x", some "u", some "pw"⟩).session.api_cookies = some [("session", "reg")] ∧
    (register defaultGlobals (constB ⟨200, .obj [], []⟩) emptySession .post
        ⟨some "e@x", some "u", some "pw"⟩).session.api_cookies = none := by
  refine ⟨?_, ?_, ?_⟩
  · have h := login_register_success_stores_cookies.1 defaultGlobals okLoginB emptySession
      ⟨some "e@x", none, some "pw"⟩ ⟨200, .obj [], [("session", "abc")]⟩
      rfl (Or.inl rfl) rfl rfl
    rw [h]
    rfl
  · have h := login_register_success_stores_cookies.2.1 defaultGlobals okRegisterB emptySession
      ⟨some "e@x", some "u", some "pw"⟩ ⟨201, .obj [], [("session", "reg")]⟩ rfl rfl
    rw [h]
    rfl
  · have h := (login_register_success_stores_cookies.2.2 defaultGlobals
      (constB ⟨200, .obj [], []⟩) emptySession
      ⟨some "e@x", some "u", some "pw"⟩ ⟨200, .obj [], []⟩ rfl rfl).1
    rw [h]
    rfl

/-- C6: a successful google_auth stores the backend token and user in the
session but never api_cookies, so a session produced solely by it is
still treated as unauthenticated: login_required redirects it to login. -/
theorem google_auth_does_not_log_in :
    ∀ (g : Globals) (b : Backend) (tok usr : Option Json) (fl : List (Json × String))
      (cred : Json) (resp : HttpResponse) (tkn uv : Json),
      cred.truthy = true →
      b .post (apiUrl g "/auth/google") (some (.obj [("credential", cred)])) [] = some resp →
      resp.ok = true →
      resp.body.pySub "token" = .ok tkn →
      resp.body.pySub "user" = .ok uv →
      google_auth g b ⟨none, tok, usr, fl⟩ (.obj [("credential", cred)]) =
        ⟨.jsonResp (.obj [("success", .bool true)]) 200,
         ⟨none, some tkn, some uv, fl⟩,
         [⟨.post, apiUrl g "/auth/google", some (.obj [("credential", cred)]), []⟩], g⟩ ∧
      (google_auth g b ⟨none, tok, usr, fl⟩ (.obj [("credential", cred)])).session.api_cookies
        = none ∧
      ∀ f, login_required g
            (google_auth g b ⟨none, tok, usr, fl⟩ (.obj [("credential", cred)])).session f
          = loginRedirect g
            (google_auth g b ⟨none, tok, usr, fl⟩ (.obj [("credential", cred)])).session := by
  intro g b tok usr fl cred resp tkn uv hcred hb hok htk hus
  have h : google_auth g b ⟨none, tok, usr, fl⟩ (.obj [("credential", cred)]) =
      ⟨.jsonResp (.obj [("success", .bool true)]) 200,
       ⟨none, some tkn, some uv, fl⟩,
       [⟨.post, apiUrl g "/auth/google", some (.obj [("credential", cred)]), []⟩], g⟩ := by
    simp [google_auth, Json.pyGetOpt, List.lookup, doCall, hb, hok, htk, hus, hcred]
  refine ⟨h, ?_, ?_⟩
  · rw [h]
  · intro f
    rw [h]
    rfl

/-- Witness for C6: with a concrete Google-auth backend the session gains
the token and user but still lacks api_cookies and is redirected. -/
theorem google_auth_does_not_log_in_witness :
    google_auth defaultGlobals googleB emptySession (.obj [("credential", .str "cred1")]) =
      ⟨.jsonResp (.obj [("success", .bool true)]) 200,
       ⟨none, some (.str "tok123"), some (.obj [("name", .str "U")]), []⟩,
       [⟨.post, apiUrl defaultGlobals "/auth/google",
         some (.obj [("credential", .str "cred1")]), []⟩], defaultGlobals⟩ :=
  (google_auth_does_not_log_in defaultGlobals googleB none none []
    (.str "cred1") ⟨200, .obj [("token", .str "tok123"), ("user", .obj [("name", .str "U")])], []⟩
    (.str "tok123") (.obj [("name", .str "U")]) rfl rfl rfl rfl rfl).1

/-- C10: the lessons route flashes an error and redirects to courses when
fetching the course fails (network failure or a 4xx or 5xx response,
which raise_for_status turns into a failure) or when the steps list of
the fetched course is empty or the steps key is absent, and otherwise
redirects to the lesson_step route for the step_number of the first
element of the steps list in list order. -/
theorem lessons_redirects_to_first_listed_step :
    (∀ (g : Globals) (ck : Cookies) (tok usr : Option Json)
        (fl : List (Json × String)) (uid : String),
      lessons g failB ⟨some ck, tok, usr, fl⟩ uid =
        ⟨.redirect "courses" [],
         SessionStore.flash ⟨some ck, tok, usr, fl⟩
           (.str "Course not found or has no lessons.") "error",
         [⟨.get, apiUrl g ("/course/" ++ uid), none, Cookies.update [] ck⟩], g⟩) ∧
    (∀ (g : Globals) (ck : Cookies) (tok usr : Option Json)
        (fl : List (Json × String)) (uid : String) (b : Backend)
        (rest : List (String × Json)) (st : Nat) (sc : Cookies),
      b .get (apiUrl g ("/course/" ++ uid)) none (Cookies.update [] ck) =
          some ⟨st, .obj (("steps", .arr []) :: rest), sc⟩ →
      st < 400 →
      lessons g b ⟨some ck, tok, usr, fl⟩ uid =
        ⟨.redirect "courses" [],
         SessionStore.flash ⟨some ck, tok, usr, fl⟩
           (.str "Course not found or has no lessons.") "error",
         [⟨.get, apiUrl g ("/course/" ++ uid), none, Cookies.update [] ck⟩], g⟩) ∧
    (∀ (g : Globals) (ck : Cookies) (tok usr : Option Json)
        (fl : List (Json × String)) (uid : String) (b : Backend) (v : Json)
        (vrest srest rest) (st : Nat) (sc : Cookies),
      b .get (apiUrl g ("/course/" ++ uid)) none (Cookies.update [] ck) =
          some ⟨st, .obj (("steps",
            .arr (.obj (("step_number", v) :: vrest) :: srest)) :: rest), sc⟩ →
      st < 400 →
      lessons g b ⟨some ck, tok, usr, fl⟩ uid =
        ⟨.redirect "lesson_step" [("course_uid", .str uid), ("step_number", v)],
         ⟨some ck, tok, usr, fl⟩,
         [⟨.get, apiUrl g ("/course/" ++ uid), none, Cookies.update [] ck⟩], g⟩) ∧
    (∀ (g : Globals) (ck : Cookies) (tok usr : Option Json)
        (fl : List (Json × String)) (uid : String) (b : Backend)
        (st : Nat) (body : Json) (sc : Cookies),
      b .get (apiUrl g ("/course/" ++ uid)) none (Cookies.update [] ck) =
          some ⟨st, body, sc⟩ →
      400 ≤ st →
      lessons g b ⟨some ck, tok, usr, fl⟩ uid =
        ⟨.redirect "courses" [],
         SessionStore.flash ⟨some ck, tok, usr, fl⟩
           (.str "Course not found or has no lessons.") "error",
         [⟨.get, apiUrl g ("/course/" ++ uid), none, Cookies.update [] ck⟩], g⟩) ∧
    (∀ (g : Globals) (ck : Cookies) (tok usr : Option Json)
        (fl : List (Json × String)) (uid : String) (b : Backend)
        (p : String × Json) (rest : List (String × Json)) (st : Nat) (sc : Cookies),
      b .get (apiUrl g ("/course/" ++ uid)) none (Cookies.update [] ck) =
          some ⟨st, .obj (p :: rest), sc⟩ →
      st < 400 →
      List.lookup "steps" (p :: rest) = none →
      lessons g b ⟨some ck, tok, usr, fl⟩ uid =
        ⟨.redirect "courses" [],
         SessionStore.flash ⟨some ck, tok, usr, fl⟩
           (.str "Course not found or has no lessons.") "error",
         [⟨.get, apiUrl g ("/course/" ++ uid), none, Cookies.update [] ck⟩], g⟩) := by
  refine ⟨fun g ck tok usr fl uid => rfl, ?_, ?_, ?_, ?_⟩
  · intro g ck tok usr fl uid b rest st sc hb hst
    have hlt : ¬ (400 ≤ st) := by omega
    simp [lessons, login_required, lessons_body, get_course_data, doCall, hb, hlt,
      get_api_session, Json.truthy, Json.pyGetOpt, List.lookup]
  · intro g ck tok usr fl uid b v vrest srest rest st sc hb hst
    have hlt : ¬ (400 ≤ st) := by omega
    simp [lessons, login_required, lessons_body, get_course_data, doCall, hb, hlt,
      get_api_session, Json.truthy, Json.pyGetOpt, Json.pySub, Json.pyIndex,
      List.lookup, bind, Except.bind]
  · intro g ck tok usr fl uid b st body sc hb hst
    simp [lessons, login_required, lessons_body, get_course_data, doCall, hb, hst,
      get_api_session]
  · intro g ck tok usr fl uid b p rest st sc hb hst hlk
    have hlt : ¬ (400 ≤ st) := by omega
    simp [lessons, login_required, lessons_body, get_course_data, doCall, hb, hlt,
      get_api_session, Json.truthy, Json.pyGetOpt, hlk]

/-- Witness for C10 at concrete inputs: with a course whose steps list is
ordered 5 then 2 the redirect goes to step 5 (first in list order, not
the minimal number); with an empty steps list, an absent steps key, a
404 course response or a failing backend the handler redirects to
courses. -/
theorem lessons_redirects_to_first_listed_step_witness :
    lessons defaultGlobals stepsB ⟨some [("sid", "1")], none, none, []⟩ "c1" =
      ⟨.redirect "lesson_step" [("course_uid", .str "c1"), ("step_number", .num 5)],
       ⟨some [("sid", "1")], none, none, []⟩,
       [⟨.get, apiUrl defaultGlobals ("/course/" ++ "c1"), none,
         Cookies.update [] [("sid", "1")]⟩], defaultGlobals⟩ ∧
    (lessons defaultGlobals emptyStepsB ⟨some [("sid", "1")], none, none, []⟩ "c1").response =
      .redirect "courses" [] ∧
    (lessons defaultGlobals failB ⟨some [("sid", "1")], none, none, []⟩ "c1").response =
      .redirect "courses" [] ∧
    (lessons defaultGlobals (statusB 404) ⟨some [("sid", "1")], none, none, []⟩ "c1").response =
      .redirect "courses" [] ∧
    (lessons defaultGlobals (constB ⟨200, .obj [("course_title", .str "T")], []⟩)
        ⟨some [("sid", "1")], none, none, []⟩ "c1").response =
      .redirect "courses" [] := by
  refine ⟨?_, ?_, ?_, ?_, ?_⟩
  · exact lessons_redirects_to_first_listed_step.2.2.1 defaultGlobals [("sid", "1")]
      none none [] "c1" stepsB (.num 5) [] [.obj [("step_number", .num 2)]] [] 200 []
      rfl (by omega)
  · exact congrArg HResult.response
      (lessons_redirects_to_first_listed_step.2.1 defaultGlobals [("sid", "1")]
        none none [] "c1" emptyStepsB [("course_title", .str "T")] 200 [] rfl (by omega))
  · exact congrArg HResult.response
      (lessons_redirects_to_first_listed_step.1 defaultGlobals [("sid", "1")]
        none none [] "c1")
  · exact congrArg HResult.response
      (lessons_redirects_to_first_listed_step.2.2.2.1 defaultGlobals [("sid", "1")]
        none none [] "c1" (statusB 404) 404 (.obj [("detail", .str "x")]) [] rfl (by omega))
  · exact congrArg HResult.response
      (lessons_redirects_to_first_listed_step.2.2.2.2 defaultGlobals [("sid", "1")]
        none none [] "c1" (constB ⟨200, .obj [("course_title", .str "T")], []⟩)
        ("course_title", .str "T") [] 200 [] rfl (by omega) rfl)

theorem failureSurfaced_loginRedirect (g : Globals) (sess : SessionStore) :
    failureSurfaced sess (loginRedirect g sess) :=
  ⟨fun _ h => FrontResponse.noConfusion h,
   Or.inl ⟨.str "Please log in to access this page.", rfl⟩⟩

/-- C3: when the backend raises a network failure on every call, every
route handler that issues a backend call returns a normal response (no
uncaught exception) and surfaces a user-visible error: an error flash or
a JSON error body; the logout handler suppresses the failure and still
logs the user out, the sidebar context processor substitutes the
username Error, and user_settings renders an Error user. -/
theorem backend_failure_surfaces_error :
    (∀ g sess form, failureSurfaced sess (login g failB sess .post form)) ∧
    (∀ g sess form, failureSurfaced sess (register g failB sess .post form)) ∧
    (∀ g sess, (logout g failB sess).response = .redirect "login" [] ∧
      (logout g failB sess).session.flashes =
        [(.str "You have been logged out.", "success")]) ∧
    (∀ (g : Globals) (ck : Cookies) (tok usr : Option Json) (fl : List (Json × String)),
      inject_global_data g failB ⟨some ck, tok, usr, fl⟩ =
        (.ok ⟨some (.obj [("username", .str "Error")]), .arr []⟩,
         [⟨.get, apiUrl g "/@me", none, Cookies.update [] ck⟩])) ∧
    (∀ g sess uid, failureSurfaced sess (chat_page g failB sess uid)) ∧
    (∀ g sess, failureSurfaced sess (courses g failB sess)) ∧
    (∀ g sess topic, failureSurfaced sess (generate_course g failB sess topic)) ∧
    (∀ g sess u, failureSurfaced sess (lessons g failB sess u)) ∧
    (∀ g sess, notCrash (user_settings g failB sess).response ∧
      (addsErrorFlash sess (user_settings g failB sess) ∨
       (user_settings g failB sess).response = .render "user_settings.html"
         [("user", .obj [("username", .str "Error"), ("email", .str "Could not load data")])])) ∧
    (∀ g sess fs, failureSurfaced sess (api_new_chat g failB sess (.obj fs))) ∧
    (∀ g sess u fs, failureSurfaced sess (api_chat g failB sess u (.obj fs))) ∧
    (∀ g sess u n m d, failureSurfaced sess (api_course_chat g failB sess u n m d)) ∧
    (∀ g sess u n, failureSurfaced sess (lesson_step g failB sess u n)) ∧
    (∀ g sess u n, failureSurfaced sess (start_lesson g failB sess u n)) ∧
    (∀ g sess u, failureSurfaced sess (calibrate_camera g failB sess u)) ∧
    (∀ g sess u, failureSurfaced sess (take_exam g failB sess u)) ∧
    (∀ g sess u d, failureSurfaced sess (submit_exam_proxy g failB sess u d)) ∧
    (∀ g sess u s t c, failureSurfaced sess (exam_score g failB sess u s t c)) ∧
    (∀ g sess fs, notCrash (google_auth g failB sess (.obj fs)).response ∧
      jsonError (google_auth g failB sess (.obj fs)).response) := by
  refine ⟨?_, ?_, ?_, ?_, ?_, ?_, ?_, ?_, ?_, ?_, ?_, ?_, ?_, ?_, ?_, ?_, ?_, ?_, ?_⟩
  · -- login
    intro g sess form
    rcases hguard : (!strTruthy form.password ||
        (!strTruthy form.email && !strTruthy form.username)) with _ | _
    · constructor
      · intro e h
        simp [login, doCall, failB, hguard] at h
      · exact Or.inl ⟨.str ("Error connecting to login service: " ++ requestExceptionText),
          by simp [login, doCall, failB, hguard, SessionStore.flash]⟩
    · constructor
      · intro e h
        simp [login, hguard] at h
      · exact Or.inl ⟨.str "Please enter your email or username and password.",
          by simp [login, hguard, SessionStore.flash]⟩
  · -- register
    intro g sess form
    exact ⟨fun e h => FrontResponse.noConfusion h,
      Or.inl ⟨.str ("Error connecting to registration service: " ++ requestExceptionText), rfl⟩⟩
  · -- logout
    intro g sess
    rcases sess with ⟨ac, tok, usr, fl⟩
    cases ac <;> exact ⟨rfl, rfl⟩
  · -- inject_global_data
    intro g ck tok usr fl
    rfl
  · -- chat_page
    intro g sess uid
    rcases sess with ⟨ac, tok, usr, fl⟩
    cases ac with
    | none => exact failureSurfaced_loginRedirect g _
    | some ck =>
        exact ⟨fun e h => FrontResponse.noConfusion h,
          Or.inl ⟨.str "Could not load chat session.", rfl⟩⟩
  · -- courses
    intro g sess
    rcases sess with ⟨ac, tok, usr, fl⟩
    cases ac with
    | none => exact failureSurfaced_loginRedirect g _
    | some ck =>
        exact ⟨fun e h => FrontResponse.noConfusion h,
          Or.inl ⟨.str "Could not load courses from API.", rfl⟩⟩
  · -- generate_course
    intro g sess topic
    rcases sess with ⟨ac, tok, usr, fl⟩
    cases ac with
    | none => exact failureSurfaced_loginRedirect g _
    | some ck =>
        rcases htp : strTruthy topic with _ | _
        · constructor
          · intro e h
            simp [generate_course, login_required, generate_course_body, htp] at h
          · exact Or.inl ⟨.str "Topic is required.",
              by simp [generate_course, login_required, generate_course_body, htp,
                SessionStore.flash]⟩
        · constructor
          · intro e h
            simp [generate_course, login_required, generate_course_body, htp,
              doCall, failB] at h
          · exact Or.inl ⟨.str ("Error generating course: " ++ requestExceptionText),
              by simp [generate_course, login_required, generate_course_body, htp,
                doCall, failB, SessionStore.flash]⟩
  · -- lessons
    intro g sess u
    rcases sess with ⟨ac, tok, usr, fl⟩
    cases ac with
    | none => exact failureSurfaced_loginRedirect g _
    | some ck =>
        exact ⟨fun e h => FrontResponse.noConfusion h,
          Or.inl ⟨.str "Course not found or has no lessons.", rfl⟩⟩
  · -- user_settings
    intro g sess
    rcases sess with ⟨ac, tok, usr, fl⟩
    cases ac with
    | none =>
        exact ⟨fun e h => FrontResponse.noConfusion h,
          Or.inl ⟨.str "Please log in to access this page.", rfl⟩⟩
    | some ck => exact ⟨fun e h => FrontResponse.noConfusion h, Or.inr rfl⟩
  · -- api_new_chat
    intro g sess fs
    rcases sess with ⟨ac, tok, usr, fl⟩
    cases ac with
    | none => exact failureSurfaced_loginRedirect g _
    | some ck =>
        rcases hm : ((List.lookup "message" fs).getD Json.null).truthy with _ | _
        · constructor
          · intro e h
            simp [api_new_chat, login_required, api_new_chat_body, Json.pyGetOpt, hm] at h
          · refine Or.inr ?_
            have h : (api_new_chat g failB ⟨some ck, tok, usr, fl⟩ (.obj fs)).response =
                .jsonResp (.obj [("error", .str "No message provided")]) 400 := by
              simp [api_new_chat, login_required, api_new_chat_body, Json.pyGetOpt, hm]
            rw [h]
            exact ⟨_, _, rfl, ⟨_, List.Mem.head _⟩, by omega⟩
        · constructor
          · intro e h
            simp [api_new_chat, login_required, api_new_chat_body, Json.pyGetOpt, hm,
              doCall, failB] at h
          · refine Or.inr ?_
            have h : (api_new_chat g failB ⟨some ck, tok, usr, fl⟩ (.obj fs)).response =
                .jsonResp apiErrorBody 500 := by
              simp [api_new_chat, login_required, api_new_chat_body, Json.pyGetOpt, hm,
                doCall, failB]
            rw [h]
            exact ⟨_, _, rfl, ⟨_, List.Mem.head _⟩, by omega⟩
  · -- api_chat
    intro g sess u fs
    rcases sess with ⟨ac, tok, usr, fl⟩
    cases ac with
    | none => exact failureSurfaced_loginRedirect g _
    | some ck =>
        exact ⟨fun e h => FrontResponse.noConfusion h,
          Or.inr ⟨_, _, rfl, ⟨_, List.Mem.head _⟩, by omega⟩⟩
  · -- api_course_chat
    intro g sess u n m d
    rcases sess with ⟨ac, tok, usr, fl⟩
    cases ac with
    | none => exact failureSurfaced_loginRedirect g _
    | some ck =>
        cases m <;>
          exact ⟨fun e h => FrontResponse.noConfusion h,
            Or.inr ⟨_, _, rfl, ⟨_, List.Mem.head _⟩, by omega⟩⟩
  · -- lesson_step
    intro g sess u n
    rcases sess with ⟨ac, tok, usr, fl⟩
    cases ac with
    | none => exact failureSurfaced_loginRedirect g _
    | some ck =>
        exact ⟨fun e h => FrontResponse.noConfusion h,
          Or.inl ⟨.str "Course not found.", rfl⟩⟩
  · -- start_lesson
    intro g sess u n
    rcases sess with ⟨ac, tok, usr, fl⟩
    cases ac with
    | none => exact failureSurfaced_loginRedirect g _
    | some ck =>
        exact ⟨fun e h => FrontResponse.noConfusion h,
          Or.inl ⟨.str ("Error starting lesson: " ++ requestExceptionText), rfl⟩⟩
  · -- calibrate_camera
    intro g sess u
    rcases sess with ⟨ac, tok, usr, fl⟩
    cases ac with
    | none => exact failureSurfaced_loginRedirect g _
    | some ck =>
        exact ⟨fun e h => FrontResponse.noConfusion h,
          Or.inl ⟨.str "Course not found.", rfl⟩⟩
  · -- take_exam
    intro g sess u
    rcases sess with ⟨ac, tok, usr, fl⟩
    cases ac with
    | none => exact failureSurfaced_loginRedirect g _
    | some ck =>
        exact ⟨fun e h => FrontResponse.noConfusion h,
          Or.inl ⟨.str "Course not found.", rfl⟩⟩
  · -- submit_exam_proxy
    intro g sess u d
    rcases sess with ⟨ac, tok, usr, fl⟩
    cases ac with
    | none => exact failureSurfaced_loginRedirect g _
    | some ck =>
        exact ⟨fun e h => FrontResponse.noConfusion h,
          Or.inr ⟨_, _, rfl, ⟨_, List.Mem.head _⟩, by omega⟩⟩
  · -- exam_score
    intro g sess u s t c
    rcases sess with ⟨ac, tok, usr, fl⟩
    cases ac with
    | none => exact failureSurfaced_loginRedirect g _
    | some ck =>
        exact ⟨fun e h => FrontResponse.noConfusion h,
          Or.inl ⟨.str "Course not found.", rfl⟩⟩
  · -- google_auth
    intro g sess fs
    rcases hcr : ((List.lookup "credential" fs).getD Json.null).truthy with _ | _
    · have h : (google_auth g failB sess (.obj fs)).response =
          .jsonResp (.obj [("success", .bool false), ("error", .str "Missing credential")]) 400 := by
        simp [google_auth, Json.pyGetOpt, hcr]
      constructor
      · intro e hh
        rw [h] at hh
        exact FrontResponse.noConfusion hh
      · rw [h]
        exact ⟨_, _, rfl, ⟨_, List.Mem.tail _ (List.Mem.head _)⟩, by omega⟩
    · have h : (google_auth g failB sess (.obj fs)).response =
          .jsonResp (.obj [("success", .bool false), ("error", .str requestExceptionText)]) 500 := by
        simp [google_auth, Json.pyGetOpt, hcr, doCall, failB]
      constructor
      · intro e hh
        rw [h] at hh
        exact FrontResponse.noConfusion hh
      · rw [h]
        exact ⟨_, _, rfl, ⟨_, List.Mem.tail _ (List.Mem.head _)⟩, by omega⟩

/-- Witness for C1: a logged-out session is redirected without the body
of the wrapped handler influencing the result. -/
theorem login_required_gates_on_api_cookies_witness :
    login_required defaultGlobals ⟨none, none, none, []⟩ dummyHandler =
      loginRedirect defaultGlobals ⟨none, none, none, []⟩ :=
  (login_required_gates_on_api_cookies.1 defaultGlobals none none [] dummyHandler).1

/-- Witness for C3: the chat page of a logged-in user surfaces a failing
backend as a flash-and-redirect, without crashing. -/
theorem backend_failure_surfaces_error_witness :
    failureSurfaced loggedSession (chat_page defaultGlobals failB loggedSession "u1") :=
  backend_failure_surfaces_error.2.2.2.2.1 defaultGlobals loggedSession "u1"

/-- Witness for C8: a concrete logout leaves the globals unchanged. -/
theorem handlers_preserve_shared_state_witness :
    (logout defaultGlobals failB emptySession).globals = defaultGlobals :=
  handlers_preserve_shared_state.2.2.2.1 defaultGlobals failB emptySession

/-- Witness for C9: a concrete logout against a failing backend leaves a
session without api_cookies. -/
theorem logout_always_clears_session_witness :
    (logout defaultGlobals failB loggedSession).session.api_cookies = none :=
  (logout_always_clears_session defaultGlobals failB loggedSession).2.1

/-- Counterexample for C4: the status code of the error reply of
submit_exam_proxy is not fixed: on backend statuses 503 and 418 the
proxy answers 503 and 418, so the code varies with the backend response. -/
theorem submit_exam_status_echoes_backend :
    (submit_exam_proxy defaultGlobals (statusB 503) loggedSession "c1" (.obj [])).response =
      .jsonResp (.obj [("error", .str "Submission failed at engine")]) 503 ∧
    (submit_exam_proxy defaultGlobals (statusB 418) loggedSession "c1" (.obj [])).response =
      .jsonResp (.obj [("error", .str "Submission failed at engine")]) 418 ∧
    (submit_exam_proxy defaultGlobals (statusB 503) loggedSession "c1" (.obj [])).response ≠
      (submit_exam_proxy defaultGlobals (statusB 418) loggedSession "c1" (.obj [])).response := by
  refine ⟨rfl, rfl, fun h => ?_⟩
  have h2 : (503 : Nat) = 418 := congrArg respStatus h
  exact absurd h2 (by omega)

/-- C4 (amended): on network failure every JSON proxy (api_new_chat,
api_chat, api_course_chat, submit_exam_proxy, google_auth) returns a
JSON error body with a fixed status code of 500; on a non-success
backend response (status at least 400, which raise_for_status turns
into a failure) api_new_chat — on either its create_session call or its
chat call — api_chat and api_course_chat still answer a fixed 500,
google_auth answers a fixed 401, and api_new_chat answers a fixed 400
when the message is missing — but submit_exam_proxy echoes the backend
status code with its JSON error body instead of using a fixed one. -/
theorem proxy_error_replies :
    (∀ (g : Globals) (ck : Cookies) (tok usr : Option Json) (fl : List (Json × String))
        (fs : List (String × Json)),
      ((List.lookup "message" fs).getD Json.null).truthy = true →
      (api_new_chat g failB ⟨some ck, tok, usr, fl⟩ (.obj fs)).response =
        .jsonResp apiErrorBody 500) ∧
    (∀ (g : Globals) (ck : Cookies) (tok usr : Option Json) (fl : List (Json × String))
        (u : String) (fs : List (String × Json)),
      (api_chat g failB ⟨some ck, tok, usr, fl⟩ u (.obj fs)).response =
        .jsonResp apiErrorBody 500) ∧
    (∀ (g : Globals) (ck : Cookies) (tok usr : Option Json) (fl : List (Json × String))
        (u : String) (n : Nat) (m : Method) (d : Json),
      (api_course_chat g failB ⟨some ck, tok, usr, fl⟩ u n m d).response =
        .jsonResp apiErrorBody 500) ∧
    (∀ (g : Globals) (ck : Cookies) (tok usr : Option Json) (fl : List (Json × String))
        (u : String) (d : Json),
      (submit_exam_proxy g failB ⟨some ck, tok, usr, fl⟩ u d).response =
        .jsonResp (.obj [("error", .str requestExceptionText)]) 500) ∧
    (∀ (g : Globals) (sess : SessionStore) (fs : List (String × Json)),
      ((List.lookup "credential" fs).getD Json.null).truthy = true →
      (google_auth g failB sess (.obj fs)).response =
        .jsonResp (.obj [("success", .bool false), ("error", .str requestExceptionText)]) 500) ∧
    (∀ (g : Globals) (ck : Cookies) (tok usr : Option Json) (fl : List (Json × String))
        (u : String) (fs : List (String × Json)) (st : Nat),
      400 ≤ st →
      (api_chat g (statusB st) ⟨some ck, tok, usr, fl⟩ u (.obj fs)).response =
        .jsonResp apiErrorBody 500) ∧
    (∀ (g : Globals) (sess : SessionStore) (fs : List (String × Json)) (st : Nat),
      400 ≤ st →
      ((List.lookup "credential" fs).getD Json.null).truthy = true →
      (google_auth g (statusB st) sess (.obj fs)).response =
        .jsonResp (.obj [("success", .bool false), ("error", .obj [("detail", .str "x")])]) 401) ∧
    (∀ (g : Globals) (ck : Cookies) (tok usr : Option Json) (fl : List (Json × String))
        (u : String) (d : Json) (st : Nat),
      st ≠ 200 →
      (submit_exam_proxy g (statusB st) ⟨some ck, tok, usr, fl⟩ u d).response =
        .jsonResp (.obj [("error", .str "Submission failed at engine")]) st) ∧
    (∀ (g : Globals) (ck : Cookies) (tok usr : Option Json) (fl : List (Json × String))
        (fs : List (String × Json)) (st : Nat),
      400 ≤ st →
      ((List.lookup "message" fs).getD Json.null).truthy = true →
      (api_new_chat g (statusB st) ⟨some ck, tok, usr, fl⟩ (.obj fs)).response =
        .jsonResp apiErrorBody 500) ∧
    (∀ (g : Globals) (ck : Cookies) (tok usr : Option Json) (fl : List (Json × String))
        (u : String) (n : Nat) (m : Method) (d : Json) (st : Nat),
      400 ≤ st →
      (api_course_chat g (statusB st) ⟨some ck, tok, usr, fl⟩ u n m d).response =
        .jsonResp apiErrorBody 500) ∧
    (∀ (g : Globals) (b : Backend) (ck : Cookies) (tok usr : Option Json)
        (fl : List (Json × String)) (fs : List (String × Json)),
      ((List.lookup "message" fs).getD Json.null).truthy = false →
      (api_new_chat g b ⟨some ck, tok, usr, fl⟩ (.obj fs)).response =
        .jsonResp (.obj [("error", .str "No message provided")]) 400) ∧
    (∀ (g : Globals) (b : Backend) (ck : Cookies) (tok usr : Option Json)
        (fl : List (Json × String)) (fs bfs : List (String × Json)) (sc : Cookies)
        (st₂ : Nat) (body₂ : Json) (sc₂ : Cookies),
      ((List.lookup "message" fs).getD Json.null).truthy = true →
      b .post (apiUrl g "/create_session") none (Cookies.update [] ck) =
        some ⟨200, .obj bfs, sc⟩ →
      b .post (apiUrl g "/chat")
        (some (.obj [("uid", (List.lookup "uid" bfs).getD Json.null),
                     ("message", (List.lookup "message" fs).getD Json.null)]))
        (Cookies.update (Cookies.update [] ck) sc) = some ⟨st₂, body₂, sc₂⟩ →
      400 ≤ st₂ →
      (api_new_chat g b ⟨some ck, tok, usr, fl⟩ (.obj fs)).response =
        .jsonResp apiErrorBody 500) := by
  refine ⟨?_, ?_, ?_, ?_, ?_, ?_, ?_, ?_, ?_, ?_, ?_, ?_⟩
  · intro g ck tok usr fl fs hm
    simp [api_new_chat, login_required, api_new_chat_body, Json.pyGetOpt, hm, doCall, failB]
  · intro g ck tok usr fl u fs
    rfl
  · intro g ck tok usr fl u n m d
    cases m <;> rfl
  · intro g ck tok usr fl u d
    rfl
  · intro g sess fs hcr
    simp [google_auth, Json.pyGetOpt, hcr, doCall, failB]
  · intro g ck tok usr fl u fs st hst
    simp [api_chat, login_required, api_chat_body, Json.pyGetOpt, doCall, statusB, hst]
  · intro g sess fs st hst hcr
    have hok : ¬ (st < 400) := by omega
    simp [google_auth, Json.pyGetOpt, hcr, doCall, statusB, HttpResponse.ok, hok]
  · intro g ck tok usr fl u d st hst
    simp [submit_exam_proxy, login_required, submit_exam_proxy_body, doCall, statusB, hst]
  · intro g ck tok usr fl fs st hst hm
    simp [api_new_chat, login_required, api_new_chat_body, Json.pyGetOpt, hm,
      get_api_session, doCall, statusB, hst]
  · intro g ck tok usr fl u n m d st hst
    cases m <;>
      simp [api_course_chat, login_required, api_course_chat_body, get_api_session,
        doCall, statusB, hst]
  · intro g b ck tok usr fl fs hm
    simp [api_new_chat, login_required, api_new_chat_body, Json.pyGetOpt, hm]
  · intro g b ck tok usr fl fs bfs sc st₂ body₂ sc₂ hm hb₁ hb₂ hst₂
    simp [api_new_chat, login_required, api_new_chat_body, Json.pyGetOpt, hm,
      get_api_session, doCall, hb₁, hb₂, hst₂]

/-- Witness for C4 (amended) at concrete inputs: the fixed 500, 401 and
400 replies, the fixed 500 on a non-success first or second chat call,
and the echoed 503 of submit_exam_proxy. -/
theorem proxy_error_replies_witness :
    (api_chat defaultGlobals failB loggedSession "u1" (.obj [])).response =
      .jsonResp apiErrorBody 500 ∧
    (google_auth defaultGlobals (statusB 503) emptySession
        (.obj [("credential", .str "c")])).response =
      .jsonResp (.obj [("success", .bool false), ("error", .obj [("detail", .str "x")])]) 401 ∧
    (submit_exam_proxy defaultGlobals (statusB 503) loggedSession "c1" (.obj [])).response =
      .jsonResp (.obj [("error", .str "Submission failed at engine")]) 503 ∧
    (api_new_chat defaultGlobals (statusB 503) loggedSession
        (.obj [("message", .str "hi")])).response = .jsonResp apiErrorBody 500 ∧
    (api_course_chat defaultGlobals (statusB 503) loggedSession "c1" 1 .post
        (.obj [])).response = .jsonResp apiErrorBody 500 ∧
    (api_new_chat defaultGlobals failB loggedSession (.obj [])).response =
      .jsonResp (.obj [("error", .str "No message provided")]) 400 ∧
    (api_new_chat defaultGlobals createOkChatErrB loggedSession
        (.obj [("message", .str "hi")])).response = .jsonResp apiErrorBody 500 := by
  refine ⟨?_, ?_, ?_, ?_, ?_, ?_, ?_⟩
  · exact proxy_error_replies.2.1 defaultGlobals [("sid", "1")] none none [] "u1" []
  · exact proxy_error_replies.2.2.2.2.2.2.1 defaultGlobals emptySession
      [("credential", .str "c")] 503 (by omega) rfl
  · exact proxy_error_replies.2.2.2.2.2.2.2.1 defaultGlobals [("sid", "1")] none none []
      "c1" (.obj []) 503 (by omega)
  · exact proxy_error_replies.2.2.2.2.2.2.2.2.1 defaultGlobals [("sid", "1")] none none []
      [("message", .str "hi")] 503 (by omega) rfl
  · exact proxy_error_replies.2.2.2.2.2.2.2.2.2.1 defaultGlobals [("sid", "1")] none none []
      "c1" 1 .post (.obj []) 503 (by omega)
  · exact proxy_error_replies.2.2.2.2.2.2.2.2.2.2.1 defaultGlobals failB [("sid", "1")]
      none none [] [] rfl
  · exact proxy_error_replies.2.2.2.2.2.2.2.2.2.2.2 defaultGlobals createOkChatErrB
      [("sid", "1")] none none [] [("message", .str "hi")] [("uid", .str "u1")] []
      503 (.obj [("detail", .str "x")]) [] rfl rfl rfl (by omega)

/-- Counterexample for C5: api_new_chat against a backend whose first
response sets a cookie issues a second backend call whose cookie jar is
not exactly the stored api_cookies: the response cookies of the first
call have been merged in, as the requests library does on a session. -/
theorem second_call_carries_extra_cookie :
    (api_new_chat defaultGlobals cookieB ⟨some [("sid", "1")], none, none, []⟩
        (.obj [("message", .str "hi")])).trace.map OutRequest.cookies =
      [[("sid", "1")], [("sid", "1"), ("extra", "x")]] ∧
    ¬ (∀ r ∈ (api_new_chat defaultGlobals cookieB ⟨some [("sid", "1")], none, none, []⟩
        (.obj [("message", .str "hi")])).trace, r.cookies = [("sid", "1")]) := by
  refine ⟨rfl, fun hall => ?_⟩
  have hm : (⟨.post, apiUrl defaultGlobals "/chat",
      some (.obj [("uid", .str "u1"), ("message", .str "hi")]),
      [("sid", "1"), ("extra", "x")]⟩ : OutRequest) ∈
      (api_new_chat defaultGlobals cookieB ⟨some [("sid", "1")], none, none, []⟩
        (.obj [("message", .str "hi")])).trace :=
    List.Mem.tail _ (List.Mem.head _)
  have h2 := hall _ hm
  exact absurd h2 (by decide)

theorem homepage_first_cookies (g : Globals) (tok usr : Option Json)
    (fl : List (Json × String)) (ck : Cookies) :
    firstCallCookies (homepage g ⟨some ck, tok, usr, fl⟩) ck := by
  intro r hr
  simp [homepage, login_required, homepage_body] at hr

theorem chat_page_first_cookies (g : Globals) (b : Backend) (tok usr : Option Json)
    (fl : List (Json × String)) (ck : Cookies) (u : String) :
    firstCallCookies (chat_page g b ⟨some ck, tok, usr, fl⟩ u) ck := by
  intro r hr
  simp only [chat_page, login_required, chat_page_body, get_api_session] at hr
  repeat' split at hr
  all_goals first
    | (simp only [List.take_succ_cons, List.take_zero, List.mem_singleton] at hr
       subst hr
       rw [doCall_req])
    | (simp only [List.take_succ_cons, List.take_zero, List.mem_singleton] at hr
       subst hr
       rw [get_course_data_req])
    | exact absurd hr (List.not_mem_nil r)

theorem courses_first_cookies (g : Globals) (b : Backend) (tok usr : Option Json)
    (fl : List (Json × String)) (ck : Cookies) :
    firstCallCookies (courses g b ⟨some ck, tok, usr, fl⟩) ck := by
  intro r hr
  simp only [courses, login_required, courses_body, get_api_session] at hr
  repeat' split at hr
  all_goals first
    | (simp only [List.take_succ_cons, List.take_zero, List.mem_singleton] at hr
       subst hr
       rw [doCall_req])
    | (simp only [List.take_succ_cons, List.take_zero, List.mem_singleton] at hr
       subst hr
       rw [get_course_data_req])
    | exact absurd hr (List.not_mem_nil r)

theorem generate_course_first_cookies (g : Globals) (b : Backend) (tok usr : Option Json)
    (fl : List (Json × String)) (ck : Cookies) (topic : Option String) :
    firstCallCookies (generate_course g b ⟨some ck, tok, usr, fl⟩ topic) ck := by
  intro r hr
  simp only [generate_course, login_required, generate_course_body, get_api_session] at hr
  repeat' split at hr
  all_goals first
    | (simp only [List.take_succ_cons, List.take_zero, List.mem_singleton] at hr
       subst hr
       rw [doCall_req])
    | (simp only [List.take_succ_cons, List.take_zero, List.mem_singleton] at hr
       subst hr
       rw [get_course_data_req])
    | exact absurd hr (List.not_mem_nil r)

theorem lessons_first_cookies (g : Globals) (b : Backend) (tok usr : Option Json)
    (fl : List (Json × String)) (ck : Cookies) (u : String) :
    firstCallCookies (lessons g b ⟨some ck, tok, usr, fl⟩ u) ck := by
  intro r hr
  simp only [lessons, login_required, lessons_body, get_api_session] at hr
  repeat' split at hr
  all_goals first
    | (simp only [List.take_succ_cons, List.take_zero, List.mem_singleton] at hr
       subst hr
       rw [doCall_req])
    | (simp only [List.take_succ_cons, List.take_zero, List.mem_singleton] at hr
       subst hr
       rw [get_course_data_req])
    | exact absurd hr (List.not_mem_nil r)

theorem user_settings_first_cookies (g : Globals) (b : Backend) (tok usr : Option Json)
    (fl : List (Json × String)) (ck : Cookies) :
    firstCallCookies (user_settings g b ⟨some ck, tok, usr, fl⟩) ck := by
  intro r hr
  simp only [user_settings, login_required, user_settings_body, get_api_session] at hr
  repeat' split at hr
  all_goals first
    | (simp only [List.take_succ_cons, List.take_zero, List.mem_singleton] at hr
       subst hr
       rw [doCall_req])
    | (simp only [List.take_succ_cons, List.take_zero, List.mem_singleton] at hr
       subst hr
       rw [get_course_data_req])
    | exact absurd hr (List.not_mem_nil r)

theorem api_new_chat_first_cookies (g : Globals) (b : Backend) (tok usr : Option Json)
    (fl : List (Json × String)) (ck : Cookies) (d : Json) :
    firstCallCookies (api_new_chat g b ⟨some ck, tok, usr, fl⟩ d) ck := by
  intro r hr
  simp only [api_new_chat, login_required, api_new_chat_body, get_api_session] at hr
  repeat' split at hr
  all_goals first
    | (simp only [List.take_succ_cons, List.take_zero, List.mem_singleton] at hr
       subst hr
       rw [doCall_req])
    | (simp only [List.take_succ_cons, List.take_zero, List.mem_singleton] at hr
       subst hr
       rw [get_course_data_req])
    | exact absurd hr (List.not_mem_nil r)

theorem api_chat_first_cookies (g : Globals) (b : Backend) (tok usr : Option Json)
    (fl : List (Json × String)) (ck : Cookies) (u : String) (d : Json) :
    firstCallCookies (api_chat g b ⟨some ck, tok, usr, fl⟩ u d) ck := by
  intro r hr
  simp only [api_chat, login_required, api_chat_body, get_api_session] at hr
  repeat' split at hr
  all_goals first
    | (simp only [List.take_succ_cons, List.take_zero, List.mem_singleton] at hr
       subst hr
       rw [doCall_req])
    | (simp only [List.take_succ_cons, List.take_zero, List.mem_singleton] at hr
       subst hr
       rw [get_course_data_req])
    | exact absurd hr (List.not_mem_nil r)

theorem api_course_chat_first_cookies (g : Globals) (b : Backend) (tok usr : Option Json)
    (fl : List (Json × String)) (ck : Cookies) (u : String) (n : Nat) (m : Method) (d : Json) :
    firstCallCookies (api_course_chat g b ⟨some ck, tok, usr, fl⟩ u n m d) ck := by
  intro r hr
  simp only [api_course_chat, login_required, api_course_chat_body, get_api_session] at hr
  repeat' split at hr
  all_goals first
    | (simp only [List.take_succ_cons, List.take_zero, List.mem_singleton] at hr
       subst hr
       rw [doCall_req])
    | (simp only [List.take_succ_cons, List.take_zero, List.mem_singleton] at hr
       subst hr
       rw [get_course_data_req])
    | exact absurd hr (List.not_mem_nil r)

theorem lesson_step_first_cookies (g : Globals) (b : Backend) (tok usr : Option Json)
    (fl : List (Json × String)) (ck : Cookies) (u : String) (n : Nat) :
    firstCallCookies (lesson_step g b ⟨some ck, tok, usr, fl⟩ u n) ck := by
  intro r hr
  simp only [lesson_step, login_required, lesson_step_body, get_api_session] at hr
  repeat' split at hr
  all_goals first
    | (simp only [List.take_succ_cons, List.take_zero, List.mem_singleton] at hr
       subst hr
       rw [doCall_req])
    | (simp only [List.take_succ_cons, List.take_zero, List.mem_singleton] at hr
       subst hr
       rw [get_course_data_req])
    | exact absurd hr (List.not_mem_nil r)

theorem start_lesson_first_cookies (g : Globals) (b : Backend) (tok usr : Option Json)
    (fl : List (Json × String)) (ck : Cookies) (u : String) (n : Nat) :
    firstCallCookies (start_lesson g b ⟨some ck, tok, usr, fl⟩ u n) ck := by
  intro r hr
  simp only [start_lesson, login_required, start_lesson_body, get_api_session] at hr
  repeat' split at hr
  all_goals first
    | (simp only [List.take_succ_cons, List.take_zero, List.mem_singleton] at hr
       subst hr
       rw [doCall_req])
    | (simp only [List.take_succ_cons, List.take_zero, List.mem_singleton] at hr
       subst hr
       rw [get_course_data_req])
    | exact absurd hr (List.not_mem_nil r)

theorem calibrate_camera_first_cookies (g : Globals) (b : Backend) (tok usr : Option Json)
    (fl : List (Json × String)) (ck : Cookies) (u : String) :
    firstCallCookies (calibrate_camera g b ⟨some ck, tok, usr, fl⟩ u) ck := by
  intro r hr
  simp only [calibrate_camera, login_required, calibrate_camera_body, get_api_session] at hr
  repeat' split at hr
  all_goals first
    | (simp only [List.take_succ_cons, List.take_zero, List.mem_singleton] at hr
       subst hr
       rw [doCall_req])
    | (simp only [List.take_succ_cons, List.take_zero, List.mem_singleton] at hr
       subst hr
       rw [get_course_data_req])
    | exact absurd hr (List.not_mem_nil r)

theorem take_exam_first_cookies (g : Globals) (b : Backend) (tok usr : Option Json)
    (fl : List (Json × String)) (ck : Cookies) (u : String) :
    firstCallCookies (take_exam g b ⟨some ck, tok, usr, fl⟩ u) ck := by
  intro r hr
  simp only [take_exam, login_required, take_exam_body, get_api_session] at hr
  repeat' split at hr
  all_goals first
    | (simp only [List.take_succ_cons, List.take_zero, List.mem_singleton] at hr
       subst hr
       rw [doCall_req])
    | (simp only [List.take_succ_cons, List.take_zero, List.mem_singleton] at hr
       subst hr
       rw [get_course_data_req])
    | exact absurd hr (List.not_mem_nil r)

theorem submit_exam_proxy_first_cookies (g : Globals) (b : Backend) (tok usr : Option Json)
    (fl : List (Json × String)) (ck : Cookies) (u : String) (d : Json) :
    firstCallCookies (submit_exam_proxy g b ⟨some ck, tok, usr, fl⟩ u d) ck := by
  intro r hr
  simp only [submit_exam_proxy, login_required, submit_exam_proxy_body, get_api_session] at hr
  repeat' split at hr
  all_goals first
    | (simp only [List.take_succ_cons, List.take_zero, List.mem_singleton] at hr
       subst hr
       rw [doCall_req])
    | (simp only [List.take_succ_cons, List.take_zero, List.mem_singleton] at hr
       subst hr
       rw [get_course_data_req])
    | exact absurd hr (List.not_mem_nil r)

theorem exam_score_first_cookies (g : Globals) (b : Backend) (tok usr : Option Json)
    (fl : List (Json × String)) (ck : Cookies) (u : String) (s t c : Int) :
    firstCallCookies (exam_score g b ⟨some ck, tok, usr, fl⟩ u s t c) ck := by
  intro r hr
  simp only [exam_score, login_required, exam_score_body, get_api_session] at hr
  repeat' split at hr
  all_goals first
    | (simp only [List.take_succ_cons, List.take_zero, List.mem_singleton] at hr
       subst hr
       rw [doCall_req])
    | (simp only [List.take_succ_cons, List.take_zero, List.mem_singleton] at hr
       subst hr
       rw [get_course_data_req])
    | exact absurd hr (List.not_mem_nil r)

theorem api_new_chat_second_call_jar (g : Globals) (b : Backend) (tok usr : Option Json)
    (fl : List (Json × String)) (ck : Cookies) (fs bfs : List (String × Json))
    (st : Nat) (sc : Cookies) :
    ((List.lookup "message" fs).getD Json.null).truthy = true →
    b .post (apiUrl g "/create_session") none (Cookies.update [] ck) = some ⟨st, .obj bfs, sc⟩ →
    st < 400 →
    (api_new_chat g b ⟨some ck, tok, usr, fl⟩ (.obj fs)).trace.map OutRequest.cookies =
      [Cookies.update [] ck, Cookies.update (Cookies.update [] ck) sc] := by
  intro hm hb hst
  have hlt : ¬ (400 ≤ st) := by omega
  simp only [api_new_chat, login_required, api_new_chat_body, Json.pyGetOpt,
    get_api_session, doCall, hb, hm, hlt]
  repeat' split
  all_goals simp_all [doCall_req]

theorem lesson_step_second_call_jar (g : Globals) (b : Backend) (tok usr : Option Json)
    (fl : List (Json × String)) (ck : Cookies) (u : String) (n : Nat)
    (vrest : List (String × Json)) (srest : List Json) (rest : List (String × Json))
    (st : Nat) (sc : Cookies) :
    b .get (apiUrl g ("/course/" ++ u)) none (Cookies.update [] ck) =
      some ⟨st, .obj (("steps",
        .arr (.obj (("step_number", .num (n : Int)) :: vrest) :: srest)) :: rest), sc⟩ →
    st < 400 →
    (lesson_step g b ⟨some ck, tok, usr, fl⟩ u n).trace.map OutRequest.cookies =
      [Cookies.update [] ck, Cookies.update (Cookies.update [] ck) sc] := by
  intro hb hst
  have hlt : ¬ (400 ≤ st) := by omega
  simp [lesson_step, login_required, lesson_step_body, get_course_data,
    get_api_session, doCall, hb, hlt, findStep, findStepList, Json.pySub, pyEqNat,
    Json.truthy, List.lookup]
  repeat' split
  all_goals simp_all [doCall_req]

theorem take_exam_second_call_jar (g : Globals) (b : Backend) (tok usr : Option Json)
    (fl : List (Json × String)) (ck : Cookies) (u : String) (p : String × Json)
    (rest : List (String × Json)) (st : Nat) (sc : Cookies) :
    b .get (apiUrl g ("/course/" ++ u)) none (Cookies.update [] ck) =
      some ⟨st, .obj (p :: rest), sc⟩ →
    st < 400 →
    (take_exam g b ⟨some ck, tok, usr, fl⟩ u).trace.map OutRequest.cookies =
      [Cookies.update [] ck, Cookies.update (Cookies.update [] ck) sc] := by
  intro hb hst
  have hlt : ¬ (400 ≤ st) := by omega
  simp [take_exam, login_required, take_exam_body, get_course_data,
    get_api_session, doCall, hb, hlt, Json.truthy]
  repeat' split
  all_goals simp_all [doCall_req]

theorem exam_score_second_call_jar (g : Globals) (b : Backend) (tok usr : Option Json)
    (fl : List (Json × String)) (ck : Cookies) (u : String) (s t c : Int)
    (p : String × Json) (rest : List (String × Json)) (st : Nat) (sc : Cookies) :
    b .get (apiUrl g ("/course/" ++ u)) none (Cookies.update [] ck) =
      some ⟨st, .obj (p :: rest), sc⟩ →
    st < 400 →
    (exam_score g b ⟨some ck, tok, usr, fl⟩ u s t c).trace.map OutRequest.cookies =
      [Cookies.update [] ck, Cookies.update (Cookies.update [] ck) sc] := by
  intro hb hst
  have hlt : ¬ (400 ≤ st) := by omega
  simp [exam_score, login_required, exam_score_body, get_course_data,
    get_api_session, doCall, hb, hlt, Json.truthy]
  repeat' split
  all_goals simp_all [doCall_req]

theorem inject_global_data_first_cookies (g : Globals) (b : Backend)
    (tok usr : Option Json) (fl : List (Json × String)) (ck : Cookies) :
    ∀ r ∈ (inject_global_data g b ⟨some ck, tok, usr, fl⟩).2.take 1,
      r.cookies = Cookies.update [] ck := by
  intro r hr
  simp only [inject_global_data, get_api_session] at hr
  repeat' split at hr
  all_goals first
    | (simp only [List.take_succ_cons, List.take_zero, List.mem_singleton] at hr
       subst hr
       rw [doCall_req])
    | exact absurd hr (List.not_mem_nil r)

theorem inject_global_data_second_call_jar (g : Globals) (b : Backend)
    (tok usr : Option Json) (fl : List (Json × String)) (ck : Cookies)
    (st : Nat) (body : Json) (sc : Cookies) :
    b .get (apiUrl g "/@me") none (Cookies.update [] ck) = some ⟨st, body, sc⟩ →
    (inject_global_data g b ⟨some ck, tok, usr, fl⟩).2.map OutRequest.cookies =
      [Cookies.update [] ck, Cookies.update (Cookies.update [] ck) sc] := by
  intro hb
  simp only [inject_global_data, get_api_session, doCall, hb]
  repeat' split
  all_goals simp_all [doCall_req]

/-- C5 (amended): every backend call of a protected handler goes through
a requests session initialized by get_api_session with exactly the
cookies stored under api_cookies; the first backend call of the request
therefore carries exactly those cookies, while the later call of every
handler that issues a second one (api_new_chat, lesson_step, take_exam,
exam_score, and the sidebar context processor) carries that jar updated
with the cookies set by the first backend response of the same request. -/
theorem stored_cookies_reattached :
    (∀ (g : Globals) (b : Backend) (tok usr : Option Json) (fl : List (Json × String))
        (ck : Cookies) (u : String),
      firstCallCookies (chat_page g b ⟨some ck, tok, usr, fl⟩ u) ck) ∧
    (∀ g b tok usr fl ck, firstCallCookies (courses g b ⟨some ck, tok, usr, fl⟩) ck) ∧
    (∀ g b tok usr fl ck topic,
      firstCallCookies (generate_course g b ⟨some ck, tok, usr, fl⟩ topic) ck) ∧
    (∀ g b tok usr fl ck u, firstCallCookies (lessons g b ⟨some ck, tok, usr, fl⟩ u) ck) ∧
    (∀ g b tok usr fl ck, firstCallCookies (user_settings g b ⟨some ck, tok, usr, fl⟩) ck) ∧
    (∀ g b tok usr fl ck d, firstCallCookies (api_new_chat g b ⟨some ck, tok, usr, fl⟩ d) ck) ∧
    (∀ g b tok usr fl ck u d, firstCallCookies (api_chat g b ⟨some ck, tok, usr, fl⟩ u d) ck) ∧
    (∀ g b tok usr fl ck u n m d,
      firstCallCookies (api_course_chat g b ⟨some ck, tok, usr, fl⟩ u n m d) ck) ∧
    (∀ g b tok usr fl ck u n,
      firstCallCookies (lesson_step g b ⟨some ck, tok, usr, fl⟩ u n) ck) ∧
    (∀ g b tok usr fl ck u n,
      firstCallCookies (start_lesson g b ⟨some ck, tok, usr, fl⟩ u n) ck) ∧
    (∀ g b tok usr fl ck u,
      firstCallCookies (calibrate_camera g b ⟨some ck, tok, usr, fl⟩ u) ck) ∧
    (∀ g b tok usr fl ck u, firstCallCookies (take_exam g b ⟨some ck, tok, usr, fl⟩ u) ck) ∧
    (∀ g b tok usr fl ck u d,
      firstCallCookies (submit_exam_proxy g b ⟨some ck, tok, usr, fl⟩ u d) ck) ∧
    (∀ g b tok usr fl ck u s t c,
      firstCallCookies (exam_score g b ⟨some ck, tok, usr, fl⟩ u s t c) ck) ∧
    (∀ (g : Globals) (b : Backend) (tok usr : Option Json) (fl : List (Json × String))
        (ck : Cookies) (fs bfs : List (String × Json)) (st : Nat) (sc : Cookies),
      ((List.lookup "message" fs).getD Json.null).truthy = true →
      b .post (apiUrl g "/create_session") none (Cookies.update [] ck) =
        some ⟨st, .obj bfs, sc⟩ →
      st < 400 →
      (api_new_chat g b ⟨some ck, tok, usr, fl⟩ (.obj fs)).trace.map OutRequest.cookies =
        [Cookies.update [] ck, Cookies.update (Cookies.update [] ck) sc]) ∧
    (∀ (g : Globals) (b : Backend) (tok usr : Option Json) (fl : List (Json × String))
        (ck : Cookies) (u : String) (n : Nat) (vrest : List (String × Json))
        (srest : List Json) (rest : List (String × Json)) (st : Nat) (sc : Cookies),
      b .get (apiUrl g ("/course/" ++ u)) none (Cookies.update [] ck) =
        some ⟨st, .obj (("steps",
          .arr (.obj (("step_number", .num (n : Int)) :: vrest) :: srest)) :: rest), sc⟩ →
      st < 400 →
      (lesson_step g b ⟨some ck, tok, usr, fl⟩ u n).trace.map OutRequest.cookies =
        [Cookies.update [] ck, Cookies.update (Cookies.update [] ck) sc]) ∧
    (∀ (g : Globals) (b : Backend) (tok usr : Option Json) (fl : List (Json × String))
        (ck : Cookies) (u : String) (p : String × Json) (rest : List (String × Json))
        (st : Nat) (sc : Cookies),
      b .get (apiUrl g ("/course/" ++ u)) none (Cookies.update [] ck) =
        some ⟨st, .obj (p :: rest), sc⟩ →
      st < 400 →
      (take_exam g b ⟨some ck, tok, usr, fl⟩ u).trace.map OutRequest.cookies =
        [Cookies.update [] ck, Cookies.update (Cookies.update [] ck) sc]) ∧
    (∀ (g : Globals) (b : Backend) (tok usr : Option Json) (fl : List (Json × String))
        (ck : Cookies) (u : String) (s t c : Int) (p : String × Json)
        (rest : List (String × Json)) (st : Nat) (sc : Cookies),
      b .get (apiUrl g ("/course/" ++ u)) none (Cookies.update [] ck) =
        some ⟨st, .obj (p :: rest), sc⟩ →
      st < 400 →
      (exam_score g b ⟨some ck, tok, usr, fl⟩ u s t c).trace.map OutRequest.cookies =
        [Cookies.update [] ck, Cookies.update (Cookies.update [] ck) sc]) ∧
    (∀ (g : Globals) (b : Backend) (tok usr : Option Json) (fl : List (Json × String))
        (ck : Cookies),
      ∀ r ∈ (inject_global_data g b ⟨some ck, tok, usr, fl⟩).2.take 1,
        r.cookies = Cookies.update [] ck) ∧
    (∀ (g : Globals) (b : Backend) (tok usr : Option Json) (fl : List (Json × String))
        (ck : Cookies) (st : Nat) (body : Json) (sc : Cookies),
      b .get (apiUrl g "/@me") none (Cookies.update [] ck) = some ⟨st, body, sc⟩ →
      (inject_global_data g b ⟨some ck, tok, usr, fl⟩).2.map OutRequest.cookies =
        [Cookies.update [] ck, Cookies.update (Cookies.update [] ck) sc]) :=
  ⟨chat_page_first_cookies, courses_first_cookies, generate_course_first_cookies,
   lessons_first_cookies, user_settings_first_cookies, api_new_chat_first_cookies,
   api_chat_first_cookies, api_course_chat_first_cookies, lesson_step_first_cookies,
   start_lesson_first_cookies, calibrate_camera_first_cookies, take_exam_first_cookies,
   submit_exam_proxy_first_cookies, exam_score_first_cookies,
   api_new_chat_second_call_jar, lesson_step_second_call_jar,
   take_exam_second_call_jar, exam_score_second_call_jar,
   inject_global_data_first_cookies, inject_global_data_second_call_jar⟩

/-- Witness for C5 (amended) at concrete inputs: the first chat_page call
carries exactly the stored cookie, and the second call of api_new_chat
and of lesson_step carries the stored cookie updated with the one set by
the first response. -/
theorem stored_cookies_reattached_witness :
    (⟨.get, apiUrl defaultGlobals ("/get_session/" ++ "u1"), none,
      Cookies.update [] [("sid", "1")]⟩ : OutRequest).cookies =
        Cookies.update [] [("sid", "1")] ∧
    (api_new_chat defaultGlobals cookieB ⟨some [("sid", "1")], none, none, []⟩
        (.obj [("message", .str "hi")])).trace.map OutRequest.cookies =
      [Cookies.update [] [("sid", "1")],
       Cookies.update (Cookies.update [] [("sid", "1")]) [("extra", "x")]] ∧
    (lesson_step defaultGlobals courseCookieB ⟨some [("sid", "1")], none, none, []⟩
        "c1" 1).trace.map OutRequest.cookies =
      [Cookies.update [] [("sid", "1")],
       Cookies.update (Cookies.update [] [("sid", "1")]) [("extra", "x")]] := by
  refine ⟨?_, ?_, ?_⟩
  · exact stored_cookies_reattached.1 defaultGlobals failB none none [] [("sid", "1")] "u1"
      _ (List.Mem.head _)
  · exact stored_cookies_reattached.2.2.2.2.2.2.2.2.2.2.2.2.2.2.1 defaultGlobals cookieB
      none none [] [("sid", "1")] [("message", .str "hi")] [("uid", .str "u1")] 200
      [("extra", "x")] rfl rfl (by omega)
  · exact stored_cookies_reattached.2.2.2.2.2.2.2.2.2.2.2.2.2.2.2.1 defaultGlobals
      courseCookieB none none [] [("sid", "1")] "c1" 1 [] [] [] 200 [("extra", "x")]
      rfl (by omega)
